import Mathlib

/-!
Verification of the provable query-node execution engine of the proof-of-sql
repository, centered on the group-by folding-and-inversion protocol of
`crates/proof-of-sql/src/sql/ast/group_by_expr.rs`, the semantic-analysis
membership check of `crates/proof-of-sql/src/sql/parse/query_context.rs`, and
the decimal conversions of
`crates/proof-of-sql-parser/src/intermediate_decimal.rs`.

The scalar type of the source is an abstract finite field; here it is an
arbitrary `Field S` with decidable equality.  Columns and witness vectors are
embedded as `List S`; the four pass builders are embedded as explicit records
threaded in state-passing style, with Rust `&mut` mutation becoming functional
update, Rust panics becoming `Option`, and recoverable errors becoming
`Except`.  Helper routines of the repository that are outside the reviewed
source tree (`fold_columns`, `fold_vals`, `batch_inversion`,
`aggregate_columns`, the builder method bodies, the bigdecimal dependency) are
modelled from the specification text and are marked as such in their doc
comments; everything else is translated directly from the Rust source.
-/

set_option linter.unusedVariables false
set_option linter.unusedSectionVars false
set_option linter.unnecessarySimpa false

namespace ProofOfSql

variable {S : Type} [Field S] [DecidableEq S]

/-- Scalar inversion as exposed by the source `Scalar` capability: `inv` fails
exactly on the additive identity and otherwise returns the multiplicative
inverse (spec section 6: inversion fails when the operand is the additive
identity). -/
def scalarInv (a : S) : Option S :=
  if a = 0 then none else some a⁻¹

/-- Modelled from the spec (glossary: batch inversion computes multiplicative
inverses of many field elements; the routine `slice_ops::batch_inversion` is
not under the reviewed source): elementwise multiplicative inversion of a
vector of field elements. -/
def batch_inversion (l : List S) : List S :=
  l.map (fun a => a⁻¹)

/-- Modelled from the spec (section 4.6, verify pass replays the folding
arithmetic; the routine `fold_vals` is not under the reviewed source):
`fold_vals beta vals` is the random-linear-combination fingerprint
`Σ_j beta^j * vals[j]` of a list of scalars. -/
def fold_vals (beta : S) : List S → S
  | [] => 0
  | v :: rest => v + beta * fold_vals beta rest

/-- Helper for `fold_columns`: add `mul * c[i]` into `res[i]` at every position
of `res`, the column `c` being zero-padded or truncated to the length of
`res`. -/
def addScaled (mul : S) : List S → List S → List S
  | [], _ => []
  | res, [] => res
  | r :: res, c :: cs => (r + mul * c) :: addScaled mul res cs

/-- Modelled from the spec (section 4.6 steps 2 and 3; the routine
`fold_columns` is not under the reviewed source): `fold_columns res mul beta
cols` adds `mul * beta^j * cols[j][i]` into `res[i]` for every column index `j`
and row `i`, i.e. `res[i] += mul * Σ_j beta^j * cols[j][i]`, each column
zero-padded to the length of `res`. -/
def fold_columns (res : List S) (mul beta : S) : List (List S) → List S
  | [] => res
  | c :: rest => fold_columns (addScaled mul res c) (mul * beta) beta rest

/-- Embedding of the `alloc_slice_fill_default` plus `slice_cast_mut` step of
`prove_group_by`: a length-`n` scalar vector whose entry `k` is the cast of
`count_out[k]` for `k` below the output length and zero at every padding
position. -/
def castPad (n : Nat) (count_out : List Int) : List S :=
  (count_out.map (fun (z : Int) => (z : S))).take n ++ List.replicate (n - count_out.length) 0

/-- Local vector `g_in_fold` of `prove_group_by`:
`alpha + Σ_j beta^j * g_in[j]` over the input group-by columns. -/
def g_in_fold (n : Nat) (alpha beta : S) (g_in : List (List S)) : List S :=
  fold_columns (List.replicate n alpha) 1 beta g_in

/-- Local vector `g_out_bar_fold` of `prove_group_by`:
`alpha + Σ_j beta^j * g_out_bar[j]` over the output group-by columns. -/
def g_out_bar_fold (n : Nat) (alpha beta : S) (g_out : List (List S)) : List S :=
  fold_columns (List.replicate n alpha) 1 beta g_out

/-- Local vector `sum_in_fold` of `prove_group_by`:
`1 + Σ_j beta^(j+1) * sum_in[j]` over the input sum columns. -/
def sum_in_fold (n : Nat) (beta : S) (sum_in : List (List S)) : List S :=
  fold_columns (List.replicate n 1) beta beta sum_in

/-- Local vector `sum_out_bar_fold` of `prove_group_by`:
`count_out_bar + Σ_j beta^(j+1) * sum_out_bar[j]` over the output sum columns,
seeded by the cast count column. -/
def sum_out_bar_fold (n : Nat) (beta : S) (sum_out : List (List S))
    (count_out : List Int) : List S :=
  fold_columns (castPad n count_out) beta beta sum_out

/-- Local vector `g_in_star` of `prove_group_by`: the batch inversion of the
whole of `g_in_fold`. -/
def g_in_star (n : Nat) (alpha beta : S) (g_in : List (List S)) : List S :=
  batch_inversion (g_in_fold n alpha beta g_in)

/-- Local vector `g_out_star` of `prove_group_by`: a copy of `g_out_bar_fold`
whose positions from `m_out` on are filled with the inverse of `alpha` and
whose first `m_out` positions are batch inverted. -/
def g_out_star (n m_out : Nat) (alpha_inv alpha beta : S)
    (g_out : List (List S)) : List S :=
  batch_inversion ((g_out_bar_fold n alpha beta g_out).take m_out)
    ++ List.replicate (n - m_out) alpha_inv

/-- Kind tag of a registered proof identity, as in
`sql/proof/sumcheck_subpolynomial.rs`: a `ZeroSum` identity must sum to zero
over all rows, an `Identity` one must vanish at every row. -/
inductive SumcheckSubpolynomialType where
  | ZeroSum
  | Identity
deriving DecidableEq

/-- Observable action of one prove-pass builder call: producing an
intermediate witness vector or registering a sumcheck subpolynomial given as a
list of weighted products of vectors. -/
inductive ProverEvent (S : Type) where
  | mle : List S → ProverEvent S
  | subpoly : SumcheckSubpolynomialType → List (S × List (List S)) → ProverEvent S
deriving DecidableEq

/-- Modelled from the spec (section 4.4; the builder body is not under the
reviewed source): the prove pass builder holds the table length, the
transcript challenge stream with the number of challenges consumed so far, and
the ordered list of produce/register events. -/
structure ProofBuilder (S : Type) where
  table_length : Nat
  challenges : Nat → S
  num_challenges_consumed : Nat
  events : List (ProverEvent S)

/-- Builder method `consume_post_result_challenge`: draw the next transcript
scalar. -/
def ProofBuilder.consume_post_result_challenge (b : ProofBuilder S) :
    S × ProofBuilder S :=
  (b.challenges b.num_challenges_consumed,
   { b with num_challenges_consumed := b.num_challenges_consumed + 1 })

/-- Builder method `produce_intermediate_mle`: append an intermediate witness
vector to the ordered production list. -/
def ProofBuilder.produce_intermediate_mle (b : ProofBuilder S) (v : List S) :
    ProofBuilder S :=
  { b with events := b.events ++ [ProverEvent.mle v] }

/-- Builder method `produce_sumcheck_subpolynomial`: register one proof
identity with its kind and weighted product terms. -/
def ProofBuilder.produce_sumcheck_subpolynomial (b : ProofBuilder S)
    (k : SumcheckSubpolynomialType) (terms : List (S × List (List S))) :
    ProofBuilder S :=
  { b with events := b.events ++ [ProverEvent.subpoly k terms] }

/-- Tag test for intermediate witness production events. -/
def ProverEvent.isMle : ProverEvent S → Bool
  | .mle _ => true
  | .subpoly _ _ => false

/-- Tag test for identity registration events. -/
def ProverEvent.isSubpoly : ProverEvent S → Bool
  | .mle _ => false
  | .subpoly _ _ => true

/-- Number of intermediate witness vectors produced so far. -/
def ProofBuilder.numMles (b : ProofBuilder S) : Nat :=
  (b.events.filter ProverEvent.isMle).length

/-- Number of proof identities registered so far. -/
def ProofBuilder.numSubpolys (b : ProofBuilder S) : Nat :=
  (b.events.filter ProverEvent.isSubpoly).length

/-- Conversion of the boolean selection column into the scalar vector it
denotes inside a subpolynomial term. -/
def boolToScalars (sel : List Bool) : List S :=
  sel.map (fun x => if x then 1 else 0)

/-- Translation of the free function `prove_group_by` of `group_by_expr.rs`.
The scalar computations mirror the source line by line; the `expect` on
`alpha.inv()` is the `none` branch, taken exactly when `alpha` is the additive
identity, and it fires before any builder mutation, as in the source where the
panic happens before the produce calls. -/
def prove_group_by (b : ProofBuilder S) (alpha beta : S)
    (g_in sum_in : List (List S)) (sel_in : List Bool)
    (g_out sum_out : List (List S)) (count_out : List Int) :
    Option (ProofBuilder S) :=
  match scalarInv alpha with
  | none => none
  | some alpha_inv =>
    let n := b.table_length
    let m_out := count_out.length
    let gif : List S := g_in_fold n alpha beta g_in
    let gof : List S := g_out_bar_fold n alpha beta g_out
    let sif : List S := sum_in_fold n beta sum_in
    let sof : List S := sum_out_bar_fold n beta sum_out count_out
    let gis : List S := g_in_star n alpha beta g_in
    let gos : List S := g_out_star n m_out alpha_inv alpha beta g_out
    let b := b.produce_intermediate_mle gis
    let b := b.produce_intermediate_mle gos
    let b := b.produce_sumcheck_subpolynomial .ZeroSum
      [(1, [gis, boolToScalars sel_in, sif]), (-1, [gos, sof])]
    let b := b.produce_sumcheck_subpolynomial .Identity
      [(1, [gis, gif]), (-1, [])]
    let b := b.produce_sumcheck_subpolynomial .Identity
      [(1, [gos, gof]), (-1, [])]
    some b

/-- Recoverable proof error, as in `base/proof/proof_error.rs`: the
verification-failure class of the error model (spec section 7). -/
inductive ProofError where
  | VerificationError : String → ProofError
deriving DecidableEq

/-- Modelled from the spec (section 4.5; the builder body is not under the
reviewed source): the verify pass builder mirrors the prove pass builder on
scalar evaluations.  It holds the evaluation of the all-ones vector, the
evaluation of the random per-row selector, the optional index-set evaluation,
the claimed result and witness evaluation streams with their consumption
counters, the challenge stream with its counter, and the ordered list of
registered identity evaluations. -/
structure VerificationBuilder (S : Type) where
  one_evaluation : S
  random_evaluation : S
  result_indexes_evaluation : Option S
  result_mles : Nat → S
  num_result_consumed : Nat
  intermediate_mles : Nat → S
  num_intermediate_consumed : Nat
  challenges : Nat → S
  num_challenges_consumed : Nat
  subpoly_evals : List S

/-- Builder method `consume_result_mle`: pull the next claimed result column
evaluation, in production order. -/
def VerificationBuilder.consume_result_mle (b : VerificationBuilder S) :
    S × VerificationBuilder S :=
  (b.result_mles b.num_result_consumed,
   { b with num_result_consumed := b.num_result_consumed + 1 })

/-- Builder method `consume_intermediate_mle`: pull the next claimed witness
evaluation, in production order. -/
def VerificationBuilder.consume_intermediate_mle (b : VerificationBuilder S) :
    S × VerificationBuilder S :=
  (b.intermediate_mles b.num_intermediate_consumed,
   { b with num_intermediate_consumed := b.num_intermediate_consumed + 1 })

/-- Builder method `consume_post_result_challenge` on the verifier side:
replay the next transcript scalar. -/
def VerificationBuilder.consume_post_result_challenge
    (b : VerificationBuilder S) : S × VerificationBuilder S :=
  (b.challenges b.num_challenges_consumed,
   { b with num_challenges_consumed := b.num_challenges_consumed + 1 })

/-- Builder method `produce_sumcheck_subpolynomial_evaluation`: hand one
claimed identity evaluation to the outer sumcheck check. -/
def VerificationBuilder.produce_sumcheck_subpolynomial_evaluation
    (b : VerificationBuilder S) (v : S) : VerificationBuilder S :=
  { b with subpoly_evals := b.subpoly_evals ++ [v] }

/-- Iterated `consume_result_mle`, as built by the
`repeat_with(..).take(k)` iterators of `GroupByExpr::verifier_evaluate`. -/
def VerificationBuilder.consume_result_mles (b : VerificationBuilder S) :
    Nat → VerificationBuilder S × List S
  | 0 => (b, [])
  | k + 1 =>
    let (v, b1) := b.consume_result_mle
    let (b2, vs) := b1.consume_result_mles k
    (b2, v :: vs)

/-- Translation of the free function `verify_group_by` of `group_by_expr.rs`:
recompute the four folds over single claimed scalar evaluations, consume the
two claimed witness evaluations, and register the three identity
evaluations. -/
def verify_group_by (b : VerificationBuilder S) (alpha beta : S)
    (g_in_evals sum_in_evals : List S) (sel_in_eval : S)
    (g_out_evals sum_out_evals : List S) (count_out_eval : S) :
    VerificationBuilder S × Except ProofError Unit :=
  let one_eval := b.one_evaluation
  let rand_eval := b.random_evaluation
  let g_in_fold_eval := alpha * one_eval + fold_vals beta g_in_evals
  let g_out_bar_fold_eval := alpha * one_eval + fold_vals beta g_out_evals
  let sum_in_fold_eval := one_eval + beta * fold_vals beta sum_in_evals
  let sum_out_bar_fold_eval := count_out_eval + beta * fold_vals beta sum_out_evals
  let (g_in_star_eval, b) := b.consume_intermediate_mle
  let (g_out_star_eval, b) := b.consume_intermediate_mle
  let b := b.produce_sumcheck_subpolynomial_evaluation
    (g_in_star_eval * sel_in_eval * sum_in_fold_eval
      - g_out_star_eval * sum_out_bar_fold_eval)
  let b := b.produce_sumcheck_subpolynomial_evaluation
    (rand_eval * (g_in_star_eval * g_in_fold_eval - one_eval))
  let b := b.produce_sumcheck_subpolynomial_evaluation
    (rand_eval * (g_out_star_eval * g_out_bar_fold_eval - one_eval))
  (b, Except.ok ())

/-- Modelled from the spec (section 4.2; the builder body is not under the
reviewed source): the count pass builder accumulates the declared resource
totals, taking the maximum for the polynomial degree and sums everywhere
else. -/
structure CountBuilder where
  result_columns : Nat
  intermediate_mles : Nat
  subpolynomials : Nat
  degree : Nat
  post_result_challenges : Nat
deriving DecidableEq

/-- Count builder with every total at zero, the state in which a query
evaluation starts its count pass. -/
def CountBuilder.init : CountBuilder :=
  { result_columns := 0, intermediate_mles := 0, subpolynomials := 0,
    degree := 0, post_result_challenges := 0 }

/-- Builder method `count_result_columns`. -/
def CountBuilder.count_result_columns (b : CountBuilder) (k : Nat) : CountBuilder :=
  { b with result_columns := b.result_columns + k }

/-- Builder method `count_intermediate_mles`. -/
def CountBuilder.count_intermediate_mles (b : CountBuilder) (k : Nat) : CountBuilder :=
  { b with intermediate_mles := b.intermediate_mles + k }

/-- Builder method `count_subpolynomials`. -/
def CountBuilder.count_subpolynomials (b : CountBuilder) (k : Nat) : CountBuilder :=
  { b with subpolynomials := b.subpolynomials + k }

/-- Builder method `count_degree`: record the maximum term degree across all
identities. -/
def CountBuilder.count_degree (b : CountBuilder) (k : Nat) : CountBuilder :=
  { b with degree := max b.degree k }

/-- Builder method `count_post_result_challenges`. -/
def CountBuilder.count_post_result_challenges (b : CountBuilder) (k : Nat) : CountBuilder :=
  { b with post_result_challenges := b.post_result_challenges + k }

/-- Index set of the surviving rows, as in `sql/proof/indexes.rs`: a dense
half-open range or an explicit sparse list. -/
inductive Indexes where
  | dense : Nat → Nat → Indexes
  | sparse : List Nat → Indexes
deriving DecidableEq

/-- Column type tags needed by the group-by node, from
`base/database/column.rs`. -/
inductive ColumnType where
  | BigInt
  | Int128
  | VarChar
  | Boolean
  | Scalar
deriving DecidableEq

/-- Output schema entry, as `ColumnField::new(name, type)` in the source. -/
structure ColumnField where
  name : String
  column_type : ColumnType
deriving DecidableEq

/-- Materialized typed column, restricted to the shapes the group-by node
manipulates: a boolean column (the selection), a big-integer column (the
count), or a column already materialized as scalars. -/
inductive Column (S : Type) where
  | boolean : List Bool → Column S
  | bigint : List Int → Column S
  | scalars : List S → Column S
deriving DecidableEq

/-- Column method `as_boolean`, succeeding only on boolean columns. -/
def Column.as_boolean : Column S → Option (List Bool)
  | .boolean l => some l
  | .bigint _ => none
  | .scalars _ => none

/-- Column length. -/
def Column.len : Column S → Nat
  | .boolean l => l.length
  | .bigint l => l.length
  | .scalars l => l.length

/-- Scalar materialization of a typed column, as used by the folding and
aggregation arithmetic. -/
def Column.toScalars : Column S → List S
  | .boolean l => l.map (fun x => if x then 1 else 0)
  | .bigint l => l.map (fun (z : Int) => (z : S))
  | .scalars l => l

/-- Modelled from the spec (section 4.3; the builder body is not under the
reviewed source): the result pass builder holds the table length, the produced
result columns, the index set together with the number of times it was set,
and the number of post-result challenges requested for the outer
transcript. -/
structure ResultBuilder (S : Type) where
  table_length : Nat
  result_index_set : Option Indexes
  num_index_set_calls : Nat
  result_columns : List (Column S)
  num_post_result_challenges : Nat

/-- Builder method `set_result_indexes`: record the index set and count the
call, a second call being the contract violation the count tracks. -/
def ResultBuilder.set_result_indexes (b : ResultBuilder S) (idx : Indexes) :
    ResultBuilder S :=
  { b with result_index_set := some idx,
           num_index_set_calls := b.num_index_set_calls + 1 }

/-- Builder method `produce_result_column`: append one produced result
column. -/
def ResultBuilder.produce_result_column (b : ResultBuilder S) (c : Column S) :
    ResultBuilder S :=
  { b with result_columns := b.result_columns ++ [c] }

/-- Builder method `request_post_result_challenges`. -/
def ResultBuilder.request_post_result_challenges (b : ResultBuilder S) (k : Nat) :
    ResultBuilder S :=
  { b with num_post_result_challenges := b.num_post_result_challenges + k }

/-- Abstract child node of the group-by expression, standing for the
`ProvableExprPlan` where clause and the `ColumnExpr` column expressions whose
bodies are outside the reviewed source.  A child exposes the four passes of
the query-node capability contract (spec section 4.1); its result pass
receives only the table length, as in the source calls
`expr.result_evaluate(builder.table_length(), alloc, accessor)`, and its
static reflection is the column field it outputs. -/
structure ChildExpr (S : Type) where
  column_field : ColumnField
  countFn : CountBuilder → Except ProofError CountBuilder
  resultFn : Nat → Column S
  proverFn : ProofBuilder S → ProofBuilder S × Column S
  verifierFn : VerificationBuilder S → VerificationBuilder S × Except ProofError S

/-- Table reference of the node. -/
structure TableExpr where
  table_ref : String
deriving DecidableEq

/-- Translation of the struct `GroupByExpr` of `group_by_expr.rs`: ordered
group-by column expressions, ordered sum expressions with their output
fields, the count alias, the source table and the where clause. -/
structure GroupByExpr (S : Type) where
  group_by_exprs : List (ChildExpr S)
  sum_expr : List (ChildExpr S × ColumnField)
  count_alias : String
  table : TableExpr
  where_clause : ChildExpr S

/-- Result of the aggregation routine: `m`-length group-by key columns,
`m`-length per-group sums and the `m`-length per-group row count. -/
structure AggregatedColumns (S : Type) where
  group_by_columns : List (List S)
  sum_columns : List (List S)
  count_column : List Int

/-- Positions of the rows selected by the boolean mask. -/
def selectedRows (sel : List Bool) : List Nat :=
  (List.range sel.length).filter (fun i => sel.getD i false)

/-- Key tuple of row `i` under the scalar group-by columns. -/
def keyAt (gcols : List (List S)) (i : Nat) : List S :=
  gcols.map (fun c => c.getD i 0)

/-- Distinct key tuples among the given rows, in order of first
appearance. -/
def distinctKeysAux (gcols : List (List S)) : List Nat → List (List S) → List (List S)
  | [], acc => acc
  | i :: rest, acc =>
    if keyAt gcols i ∈ acc then distinctKeysAux gcols rest acc
    else distinctKeysAux gcols rest (acc ++ [keyAt gcols i])

/-- Distinct key tuples of the selected rows. -/
def distinctKeys (gcols : List (List S)) (sel : List Bool) : List (List S) :=
  distinctKeysAux gcols (selectedRows sel) []

/-- Selected rows whose key tuple equals `t`. -/
def rowsOfKey (gcols : List (List S)) (sel : List Bool) (t : List S) : List Nat :=
  (selectedRows sel).filter (fun i => decide (keyAt gcols i = t))

/-- Modelled from the spec (section 4.6 result pass; `aggregate_columns` of
`group_by_util.rs` is not under the reviewed source): group the selected rows
by distinct key tuple and return, for the `m` distinct groups, the `m`-length
key columns, the `m`-length per-group sums and the `m`-length per-group row
count. -/
def aggregate_columns (gcols scols : List (Column S)) (sel : List Bool) :
    AggregatedColumns S :=
  let g := gcols.map Column.toScalars
  let s := scols.map Column.toScalars
  let keys := distinctKeys g sel
  { group_by_columns := (List.range g.length).map (fun j => keys.map (fun t => t.getD j 0)),
    sum_columns := s.map (fun c =>
      keys.map (fun t => ((rowsOfKey g sel t).map (fun i => c.getD i 0)).sum)),
    count_column := keys.map (fun t => (Int.ofNat (rowsOfKey g sel t).length)) }

/-- Sequential count pass over a list of child column expressions, each
followed by the `count_result_columns(1)` call of `GroupByExpr::count`. -/
def countChildren (cs : List (ChildExpr S)) (b : CountBuilder) :
    Except ProofError CountBuilder :=
  match cs with
  | [] => .ok b
  | c :: rest =>
    match c.countFn b with
    | .error e => .error e
    | .ok b1 => countChildren rest (b1.count_result_columns 1)

/-- Sequential prove pass over a list of child expressions, collecting their
output columns in order. -/
def runChildrenP (cs : List (ChildExpr S)) (b : ProofBuilder S) :
    ProofBuilder S × List (Column S) :=
  match cs with
  | [] => (b, [])
  | c :: rest =>
    let (b1, col) := c.proverFn b
    let (b2, cols) := runChildrenP rest b1
    (b2, col :: cols)

/-- Sequential verify pass over a list of child expressions, stopping at the
first failing child as the `collect::<Result<Vec<_>, _>>` of the source
does. -/
def runChildrenV (cs : List (ChildExpr S)) (b : VerificationBuilder S) :
    VerificationBuilder S × Except ProofError (List S) :=
  match cs with
  | [] => (b, .ok [])
  | c :: rest =>
    match c.verifierFn b with
    | (b1, .error e) => (b1, .error e)
    | (b1, .ok v) =>
      match runChildrenV rest b1 with
      | (b2, .error e) => (b2, .error e)
      | (b2, .ok vs) => (b2, .ok (v :: vs))

/-- Translation of `GroupByExpr::count`: recursively count the where clause,
each group-by and sum column expression with one result column each, then the
count column, two intermediate witness vectors, three subpolynomials of
maximum degree three and two post-result challenges. -/
def GroupByExpr.count (e : GroupByExpr S) (b : CountBuilder) :
    Except ProofError CountBuilder :=
  match e.where_clause.countFn b with
  | .error err => .error err
  | .ok b1 =>
    match countChildren e.group_by_exprs b1 with
    | .error err => .error err
    | .ok b2 =>
      match countChildren (e.sum_expr.map (fun p => p.1)) b2 with
      | .error err => .error err
      | .ok b3 =>
        .ok (((((b3.count_result_columns 1).count_intermediate_mles 2).count_subpolynomials
          3).count_degree 3).count_post_result_challenges 2)

/-- Translation of `GroupByExpr::get_column_result_fields`: the group-by
column fields, the sum output fields, then the count alias typed as
`BigInt`. -/
def GroupByExpr.get_column_result_fields (e : GroupByExpr S) : List ColumnField :=
  (e.group_by_exprs.map (fun c => c.column_field))
    ++ (e.sum_expr.map (fun p => p.2))
    ++ [{ name := e.count_alias, column_type := ColumnType.BigInt }]

/-- Translation of `GroupByExpr::result_evaluate`: evaluate the selection and
the columns, aggregate, set the dense index range `[0, m)`, produce the
group-by result columns, the sum result columns and the count column, and
request two post-result challenges.  The `none` branch is the panic of the
`expect("selection is not boolean")` downcast. -/
def GroupByExpr.result_evaluate (e : GroupByExpr S) (b : ResultBuilder S) :
    Option (ResultBuilder S) :=
  let selection_column := e.where_clause.resultFn b.table_length
  match selection_column.as_boolean with
  | none => none
  | some selection =>
    let group_by_columns := e.group_by_exprs.map (fun c => c.resultFn b.table_length)
    let sum_columns := e.sum_expr.map (fun p => p.1.resultFn b.table_length)
    let agg := aggregate_columns group_by_columns sum_columns selection
    let b := b.set_result_indexes (Indexes.dense 0 agg.count_column.length)
    let b := (agg.group_by_columns.map Column.scalars).foldl
      ResultBuilder.produce_result_column b
    let b := (agg.sum_columns.map Column.scalars).foldl
      ResultBuilder.produce_result_column b
    let b := b.produce_result_column (Column.bigint agg.count_column)
    some (b.request_post_result_challenges 2)

/-- Translation of `GroupByExpr::prover_evaluate`: evaluate the selection and
the columns through the prove pass, aggregate, draw the challenges `alpha`
then `beta`, and run `prove_group_by`.  The `none` branches are the source
panics (non-boolean selection, inversion of a zero challenge). -/
def GroupByExpr.prover_evaluate (e : GroupByExpr S) (b : ProofBuilder S) :
    Option (ProofBuilder S) :=
  let (b1, selection_column) := e.where_clause.proverFn b
  match selection_column.as_boolean with
  | none => none
  | some selection =>
    let (b2, group_by_columns) := runChildrenP e.group_by_exprs b1
    let (b3, sum_columns) := runChildrenP (e.sum_expr.map (fun p => p.1)) b2
    let agg := aggregate_columns group_by_columns sum_columns selection
    let (alpha, b4) := b3.consume_post_result_challenge
    let (beta, b5) := b4.consume_post_result_challenge
    prove_group_by b5 alpha beta
      (group_by_columns.map Column.toScalars)
      (sum_columns.map Column.toScalars)
      selection
      agg.group_by_columns agg.sum_columns agg.count_column

/-- Translation of `GroupByExpr::verifier_evaluate`: run the where clause and
the column children, fail with a recoverable verification error when the
index-set evaluation is absent, consume the claimed result evaluations of the
group-by columns, the sum columns and the count column, consume the challenges
`alpha` then `beta`, and run `verify_group_by`. -/
def GroupByExpr.verifier_evaluate (e : GroupByExpr S) (b : VerificationBuilder S) :
    VerificationBuilder S × Except ProofError Unit :=
  match e.where_clause.verifierFn b with
  | (b1, .error err) => (b1, .error err)
  | (b1, .ok where_eval) =>
    match runChildrenV e.group_by_exprs b1 with
    | (b2, .error err) => (b2, .error err)
    | (b2, .ok group_by_evals) =>
      match runChildrenV (e.sum_expr.map (fun p => p.1)) b2 with
      | (b3, .error err) => (b3, .error err)
      | (b3, .ok aggregate_evals) =>
        match b3.result_indexes_evaluation with
        | none => (b3, .error (ProofError.VerificationError "invalid indexes"))
        | some _ =>
          let (b4, group_by_result_columns_evals) :=
            b3.consume_result_mles e.group_by_exprs.length
          let (b5, sum_result_columns_evals) :=
            b4.consume_result_mles e.sum_expr.length
          let (count_column_eval, b6) := b5.consume_result_mle
          let (alpha, b7) := b6.consume_post_result_challenge
          let (beta, b8) := b7.consume_post_result_challenge
          verify_group_by b8 alpha beta
            group_by_evals aggregate_evals where_eval
            group_by_result_columns_evals sum_result_columns_evals
            count_column_eval

/-- Pointwise evaluation at row `i` of one weighted product term of a
subpolynomial: the coefficient times the product of the vector entries. -/
def termEval (i : Nat) (t : S × List (List S)) : S :=
  t.1 * (t.2.map (fun v => v.getD i 0)).prod

/-- Pointwise evaluation at row `i` of the whole term list of a
subpolynomial. -/
def termsEval (i : Nat) (ts : List (S × List (List S))) : S :=
  (ts.map (termEval i)).sum

/-- Definition following the spec words (section 4.6: the verify pass replays
the identical folding arithmetic of steps 2 and 3 on single claimed scalar
evaluations, with the constant terms carried by the all-ones evaluation, and
registers the three corresponding scalar identities of step 5, the
Identity-kind ones checked pointwise through the random per-row selector
evaluation): the list of the three identity evaluations, in registration
order. -/
def spec_group_by_identity_evals (one_eval rand_eval alpha beta : S)
    (g_in_evals sum_in_evals : List S) (sel_in_eval : S)
    (g_out_evals sum_out_evals : List S) (count_out_eval : S)
    (g_in_star_eval g_out_star_eval : S) : List S :=
  let gInF := alpha * one_eval
    + ∑ j ∈ Finset.range g_in_evals.length, beta ^ j * g_in_evals.getD j 0
  let gOutF := alpha * one_eval
    + ∑ j ∈ Finset.range g_out_evals.length, beta ^ j * g_out_evals.getD j 0
  let sInF := one_eval
    + ∑ j ∈ Finset.range sum_in_evals.length, beta ^ (j + 1) * sum_in_evals.getD j 0
  let sOutF := count_out_eval
    + ∑ j ∈ Finset.range sum_out_evals.length, beta ^ (j + 1) * sum_out_evals.getD j 0
  [g_in_star_eval * sel_in_eval * sInF - g_out_star_eval * sOutF,
   rand_eval * (g_in_star_eval * gInF - one_eval),
   rand_eval * (g_out_star_eval * gOutF - one_eval)]

/-- Declared resource usage of one child node, one entry per count pass
total it can contribute to. -/
structure ChildCounts where
  mles : Nat
  subpolys : Nat
  challenges : Nat
  degree : Nat
deriving DecidableEq

/-- Effect of a child with declared counts `k` on the count pass builder. -/
def CountBuilder.addChild (b : CountBuilder) (k : ChildCounts) : CountBuilder :=
  { result_columns := b.result_columns,
    intermediate_mles := b.intermediate_mles + k.mles,
    subpolynomials := b.subpolynomials + k.subpolys,
    degree := max b.degree k.degree,
    post_result_challenges := b.post_result_challenges + k.challenges }

/-- Contract of the count invariant (spec sections 3 and 4.1) for a child
node: its count pass declares exactly the resources its prove and verify
passes use, it declares no result columns (a child never receives the result
builder, so it cannot produce any), and it leaves the table length, the
streams and the context evaluations of the builders unchanged. -/
def ChildHasCounts (c : ChildExpr S) (k : ChildCounts) : Prop :=
  (∀ b, c.countFn b = .ok (b.addChild k)) ∧
  (∀ b, (c.proverFn b).1.numMles = b.numMles + k.mles
    ∧ (c.proverFn b).1.numSubpolys = b.numSubpolys + k.subpolys
    ∧ (c.proverFn b).1.num_challenges_consumed
        = b.num_challenges_consumed + k.challenges
    ∧ (c.proverFn b).1.table_length = b.table_length
    ∧ (c.proverFn b).1.challenges = b.challenges) ∧
  (∀ b, (∃ v, (c.verifierFn b).2 = .ok v)
    ∧ (c.verifierFn b).1.num_result_consumed = b.num_result_consumed
    ∧ (c.verifierFn b).1.num_intermediate_consumed
        = b.num_intermediate_consumed + k.mles
    ∧ (c.verifierFn b).1.num_challenges_consumed
        = b.num_challenges_consumed + k.challenges
    ∧ (c.verifierFn b).1.subpoly_evals.length
        = b.subpoly_evals.length + k.subpolys
    ∧ (c.verifierFn b).1.result_indexes_evaluation = b.result_indexes_evaluation)

/-- Translation of the struct `QueryContext` of `query_context.rs`, restricted
to the fields that `is_in_group_by_exprs` reads: the aggregation scope flag,
the result scope flag and the group-by identifier list. -/
structure QueryContext where
  in_agg_scope : Bool
  in_result_scope : Bool
  group_by_exprs : List String
deriving DecidableEq

/-- Conversion errors of the semantic analysis pass, restricted to the
constructors the reviewed source raises. -/
inductive ConversionError where
  | InvalidGroupByColumnRef : String → ConversionError
  | InvalidExpression : String → ConversionError
deriving DecidableEq

/-- Accessor `QueryContext::is_in_agg_scope`. -/
def QueryContext.is_in_agg_scope (q : QueryContext) : Bool :=
  q.in_agg_scope

/-- Accessor `QueryContext::is_in_result_scope`. -/
def QueryContext.is_in_result_scope (q : QueryContext) : Bool :=
  q.in_result_scope

/-- Translation of `QueryContext::is_in_group_by_exprs`: with an empty
group-by list, inside aggregation scope or outside result scope the check
answers false; otherwise a column in the group-by list answers true and any
other column raises `InvalidGroupByColumnRef`. -/
def QueryContext.is_in_group_by_exprs (q : QueryContext) (column : String) :
    Except ConversionError Bool :=
  if q.group_by_exprs.isEmpty || q.is_in_agg_scope || !q.is_in_result_scope then
    .ok false
  else
    match q.group_by_exprs.find? (fun g => g == column) with
    | some _ => .ok true
    | none => .error (ConversionError.InvalidGroupByColumnRef column)

/-- Decimal processing errors of `intermediate_decimal.rs`, without the
payload of the parse constructor. -/
inductive DecimalError where
  | ParseError : DecimalError
  | OutOfRange : DecimalError
  | LossyCast : DecimalError
  | ConversionFailure : DecimalError
deriving DecidableEq

/-- Modelled from the bigdecimal dependency (outside the repository): an
arbitrary-precision decimal is an integer mantissa with a nonnegative decimal
scale, denoting the exact rational `int_val / 10 ^ scale`. -/
structure BigDecimal where
  int_val : Int
  scale : Nat
deriving DecidableEq

/-- Modelled from the bigdecimal dependency: `is_integer` holds exactly when
the fractional part is zero, i.e. when the scale power of ten divides the
mantissa. -/
def BigDecimal.is_integer (d : BigDecimal) : Bool :=
  d.int_val % ((10 : Int) ^ d.scale) == 0

/-- Quotient of the mantissa by the scale power of ten; on integer-valued
decimals this is the exact integer value. -/
def BigDecimal.intQuot (d : BigDecimal) : Int :=
  d.int_val / (10 : Int) ^ d.scale

/-- Modelled from the bigdecimal dependency, for the integer-valued inputs the
guarded conversions reach: `to_i64` answers the value when it fits the 64-bit
signed range and nothing otherwise. -/
def BigDecimal.to_i64 (d : BigDecimal) : Option Int :=
  if -(2 ^ 63) ≤ d.intQuot ∧ d.intQuot ≤ 2 ^ 63 - 1 then some d.intQuot else none

/-- Modelled from the bigdecimal dependency, as `to_i64` but for the 128-bit
signed range. -/
def BigDecimal.to_i128 (d : BigDecimal) : Option Int :=
  if -(2 ^ 127) ≤ d.intQuot ∧ d.intQuot ≤ 2 ^ 127 - 1 then some d.intQuot else none

/-- Translation of the struct `IntermediateDecimal`: a wrapper around the
stored big-decimal value. -/
structure IntermediateDecimal where
  value : BigDecimal
deriving DecidableEq

/-- Translation of `TryFrom<IntermediateDecimal> for i64`: a non-integer value
is a lossy cast; otherwise `to_i64` is consulted and its answer is range
checked against the 64-bit signed bounds exactly as in the source, where
`(i64::MIN..=i64::MAX).contains(&value)` re-checks the range on an `i64`. -/
def i64_try_from (decimal : IntermediateDecimal) : Except DecimalError Int :=
  if !decimal.value.is_integer then .error .LossyCast
  else
    match decimal.value.to_i64 with
    | some value =>
      if -(2 ^ 63) ≤ value ∧ value ≤ 2 ^ 63 - 1 then .ok value
      else .error .OutOfRange
    | none => .error .OutOfRange

/-- Translation of `TryFrom<IntermediateDecimal> for i128`, the 128-bit
sibling of `i64_try_from`. -/
def i128_try_from (decimal : IntermediateDecimal) : Except DecimalError Int :=
  if !decimal.value.is_integer then .error .LossyCast
  else
    match decimal.value.to_i128 with
    | some value =>
      if -(2 ^ 127) ≤ value ∧ value ≤ 2 ^ 127 - 1 then .ok value
      else .error .OutOfRange
    | none => .error .OutOfRange

/-- Concrete child node over the rationals used to instantiate the abstract
children in concrete evaluations: it touches no builder state, returns an
all-true boolean column on the result and prove passes, and the evaluation one
on the verify pass. -/
def trivialChild : ChildExpr ℚ :=
  { column_field := { name := "c", column_type := ColumnType.BigInt },
    countFn := fun b => .ok b,
    resultFn := fun n => Column.boolean (List.replicate n true),
    proverFn := fun b => (b, Column.boolean (List.replicate b.table_length true)),
    verifierFn := fun b => (b, .ok 1) }

/-- Declared counts of `trivialChild`: all zero. -/
def zeroCounts : ChildCounts :=
  { mles := 0, subpolys := 0, challenges := 0, degree := 0 }

/-- Combined declared counts of a list of children: sums everywhere, maximum
for the degree. -/
def ChildCounts.total (ks : List ChildCounts) : ChildCounts :=
  ks.foldr
    (fun k acc =>
      { mles := k.mles + acc.mles, subpolys := k.subpolys + acc.subpolys,
        challenges := k.challenges + acc.challenges,
        degree := max k.degree acc.degree })
    zeroCounts

/-- Concrete group-by node over the rationals with one group-by column, no sum
column and a trivial where clause, used to instantiate concrete
evaluations. -/
def sampleGroupBy : GroupByExpr ℚ :=
  { group_by_exprs := [trivialChild], sum_expr := [], count_alias := "cnt",
    table := { table_ref := "t" }, where_clause := trivialChild }

/-- Concrete fresh verify pass builder over the rationals with every context
evaluation and stream entry equal to one and the index-set evaluation
present. -/
def sampleVB : VerificationBuilder ℚ :=
  { one_evaluation := 1, random_evaluation := 1,
    result_indexes_evaluation := some 1,
    result_mles := fun _ => 1, num_result_consumed := 0,
    intermediate_mles := fun _ => 1, num_intermediate_consumed := 0,
    challenges := fun _ => 1, num_challenges_consumed := 0,
    subpoly_evals := [] }

/-- The concrete verify pass builder without an index-set evaluation. -/
def sampleVBNoIndexes : VerificationBuilder ℚ :=
  { sampleVB with result_indexes_evaluation := none }

/-- Concrete fresh prove pass builder over the rationals on a one-row
table. -/
def samplePB : ProofBuilder ℚ :=
  { table_length := 1, challenges := fun _ => 1,
    num_challenges_consumed := 0, events := [] }

/-- Concrete fresh result pass builder over the rationals on a one-row
table. -/
def sampleRB : ResultBuilder ℚ :=
  { table_length := 1, result_index_set := none, num_index_set_calls := 0,
    result_columns := [], num_post_result_challenges := 0 }

theorem length_addScaled (mul : S) :
    ∀ (res c : List S), (addScaled mul res c).length = res.length := by
  intro res
  induction res with
  | nil => intro c; cases c <;> rfl
  | cons r rs ih =>
    intro c
    cases c with
    | nil => rfl
    | cons cc cs => simpa [addScaled] using ih cs

theorem getD_addScaled (mul : S) :
    ∀ (res c : List S) (i : Nat), i < res.length →
      (addScaled mul res c).getD i 0 = res.getD i 0 + mul * c.getD i 0 := by
  intro res
  induction res with
  | nil => intro c i hi; simp at hi
  | cons r rs ih =>
    intro c i hi
    cases c with
    | nil => simp [addScaled]
    | cons cc cs =>
      cases i with
      | zero => simp [addScaled]
      | succ i =>
        have hi2 : i < rs.length := Nat.lt_of_succ_lt_succ hi
        simpa [addScaled] using ih cs i hi2

theorem length_fold_columns (beta : S) :
    ∀ (cols : List (List S)) (res : List S) (mul : S),
      (fold_columns res mul beta cols).length = res.length := by
  intro cols
  induction cols with
  | nil => intro res mul; rfl
  | cons c cols ih =>
    intro res mul
    rw [fold_columns, ih, length_addScaled]

theorem getD_fold_columns (beta : S) :
    ∀ (cols : List (List S)) (res : List S) (mul : S) (i : Nat), i < res.length →
      (fold_columns res mul beta cols).getD i 0
        = res.getD i 0
          + ∑ j ∈ Finset.range cols.length, mul * beta ^ j * ((cols.getD j []).getD i 0) := by
  intro cols
  induction cols with
  | nil => intro res mul i hi; simp [fold_columns]
  | cons c cols ih =>
    intro res mul i hi
    rw [fold_columns]
    rw [ih (addScaled mul res c) (mul * beta) i (by rw [length_addScaled]; exact hi)]
    rw [getD_addScaled mul res c i hi]
    rw [List.length_cons, Finset.sum_range_succ']
    simp only [List.getD_cons_succ, List.getD_cons_zero, pow_zero]
    have hs : ∑ j ∈ Finset.range cols.length,
        mul * beta * beta ^ j * ((cols.getD j []).getD i 0)
        = ∑ j ∈ Finset.range cols.length,
          mul * beta ^ (j + 1) * ((cols.getD j []).getD i 0) := by
      apply Finset.sum_congr rfl
      intro j hj
      rw [pow_succ]
      ring
    rw [hs]
    ring

theorem fold_vals_eq_sum (beta : S) :
    ∀ l : List S,
      fold_vals beta l = ∑ j ∈ Finset.range l.length, beta ^ j * l.getD j 0 := by
  intro l
  induction l with
  | nil => simp [fold_vals]
  | cons v rest ih =>
    rw [fold_vals, ih, List.length_cons, Finset.sum_range_succ']
    simp only [List.getD_cons_succ, List.getD_cons_zero, pow_zero, one_mul]
    rw [Finset.mul_sum]
    have hs : ∑ j ∈ Finset.range rest.length, beta * (beta ^ j * rest.getD j 0)
        = ∑ j ∈ Finset.range rest.length, beta ^ (j + 1) * rest.getD j 0 := by
      apply Finset.sum_congr rfl
      intro j hj
      rw [pow_succ]
      ring
    rw [hs, add_comm]

theorem getD_replicate_self (a : S) :
    ∀ (n i : Nat), i < n → (List.replicate n a).getD i 0 = a := by
  intro n
  induction n with
  | zero => intro i hi; simp at hi
  | succ n ih =>
    intro i hi
    cases i with
    | zero => rfl
    | succ i => simpa [List.replicate] using ih i (Nat.lt_of_succ_lt_succ hi)

theorem getD_replicate_zero (m j : Nat) :
    (List.replicate m (0 : S)).getD j 0 = 0 := by
  induction m generalizing j with
  | zero => rfl
  | succ m ih =>
    cases j with
    | zero => rfl
    | succ j => simpa [List.replicate] using ih j

theorem getD_map_intCast (l : List Int) (k : Nat) :
    (l.map (fun (z : Int) => (z : S))).getD k 0 = ((l.getD k 0 : Int) : S) := by
  induction l generalizing k with
  | nil => simp
  | cons z rest ih =>
    cases k with
    | zero => rfl
    | succ k => simpa using ih k

theorem getD_append_lt (d : S) :
    ∀ (l₁ l₂ : List S) (k : Nat), k < l₁.length →
      (l₁ ++ l₂).getD k d = l₁.getD k d := by
  intro l₁
  induction l₁ with
  | nil => intro l₂ k hk; simp at hk
  | cons a l₁ ih =>
    intro l₂ k hk
    cases k with
    | zero => rfl
    | succ k => simpa using ih l₂ k (Nat.lt_of_succ_lt_succ hk)

theorem getD_append_ge (d : S) :
    ∀ (l₁ l₂ : List S) (k : Nat), l₁.length ≤ k →
      (l₁ ++ l₂).getD k d = l₂.getD (k - l₁.length) d := by
  intro l₁
  induction l₁ with
  | nil => intro l₂ k hk; simp
  | cons a l₁ ih =>
    intro l₂ k hk
    cases k with
    | zero => simp at hk
    | succ k => simpa using ih l₂ k (Nat.le_of_succ_le_succ hk)

theorem getD_take_lt (d : S) :
    ∀ (l : List S) (n k : Nat), k < n → (l.take n).getD k d = l.getD k d := by
  intro l
  induction l with
  | nil => intro n k hk; simp
  | cons a l ih =>
    intro n k hk
    cases n with
    | zero => simp at hk
    | succ n =>
      cases k with
      | zero => rfl
      | succ k => simpa using ih n k (Nat.lt_of_succ_lt_succ hk)

theorem getD_oob {α : Type} (d : α) :
    ∀ (l : List α) (k : Nat), l.length ≤ k → l.getD k d = d := by
  intro l
  induction l with
  | nil => intro k hk; rfl
  | cons a l ih =>
    intro k hk
    cases k with
    | zero => simp at hk
    | succ k => simpa using ih k (Nat.le_of_succ_le_succ hk)

theorem getD_castPad (n : Nat) (count_out : List Int) (k : Nat) (hk : k < n) :
    (castPad n count_out : List S).getD k 0 = ((count_out.getD k 0 : Int) : S) := by
  rw [castPad]
  have hlen : ((count_out.map (fun (z : Int) => (z : S))).take n).length
      = min n count_out.length := by
    simp
  by_cases h : k < count_out.length
  · rw [getD_append_lt _ _ _ _ (by rw [hlen]; omega)]
    rw [getD_take_lt _ _ _ _ hk]
    exact getD_map_intCast count_out k
  · rw [getD_append_ge _ _ _ _ (by rw [hlen]; omega)]
    have hr : (count_out.getD k 0 : Int) = 0 :=
      getD_oob (0 : Int) count_out k (by omega)
    rw [hr, getD_replicate_zero]
    simp

theorem length_castPad (n : Nat) (count_out : List Int) :
    (castPad n count_out : List S).length = n := by
  rw [castPad]
  simp [List.length_take]
  omega

theorem getD_batch_inversion (l : List S) (i : Nat) :
    (batch_inversion l).getD i 0 = (l.getD i 0)⁻¹ := by
  induction l generalizing i with
  | nil => simp [batch_inversion]
  | cons a l ih =>
    cases i with
    | zero => rfl
    | succ i => simpa [batch_inversion] using ih i

/-- C3: for every row `i` of the `n`-row input and every position `k` of the
zero-padded `m`-group output, `prove_group_by` computes the four fold vectors
as `gInFold[i] = α + Σ_j β^j · key_j[i]` over the input group-by columns,
`gOutFold[k] = α + Σ_j β^j · keyOut_j[k]` over the output group-by columns,
`sumInFold[i] = 1 + Σ_j β^(j+1) · sumCol_j[i]`, and
`sumOutFold[k] = countOut[k] + Σ_j β^(j+1) · sumColOut_j[k]`, with `countOut`
cast from integers to scalars and positions beyond `m` contributing zero. -/
theorem groupby_prover_fold_vectors (n : Nat) (alpha beta : S)
    (g_in sum_in g_out sum_out : List (List S)) (count_out : List Int)
    (i : Nat) (hi : i < n) :
    (g_in_fold n alpha beta g_in).getD i 0
      = alpha + ∑ j ∈ Finset.range g_in.length, beta ^ j * ((g_in.getD j []).getD i 0)
    ∧ (g_out_bar_fold n alpha beta g_out).getD i 0
      = alpha + ∑ j ∈ Finset.range g_out.length, beta ^ j * ((g_out.getD j []).getD i 0)
    ∧ (sum_in_fold n beta sum_in).getD i 0
      = 1 + ∑ j ∈ Finset.range sum_in.length,
          beta ^ (j + 1) * ((sum_in.getD j []).getD i 0)
    ∧ (sum_out_bar_fold n beta sum_out count_out).getD i 0
      = ((count_out.getD i 0 : Int) : S)
        + ∑ j ∈ Finset.range sum_out.length,
            beta ^ (j + 1) * ((sum_out.getD j []).getD i 0) := by
  have hrep : ∀ a : S, i < (List.replicate n a).length := by
    intro a; simpa using hi
  have hpad : i < (castPad n count_out : List S).length := by
    rw [length_castPad]; exact hi
  refine ⟨?_, ?_, ?_, ?_⟩
  · rw [g_in_fold, getD_fold_columns _ _ _ _ _ (hrep alpha), getD_replicate_self _ _ _ hi]
    congr 1
    apply Finset.sum_congr rfl
    intro j hj
    rw [one_mul]
  · rw [g_out_bar_fold, getD_fold_columns _ _ _ _ _ (hrep alpha), getD_replicate_self _ _ _ hi]
    congr 1
    apply Finset.sum_congr rfl
    intro j hj
    rw [one_mul]
  · rw [sum_in_fold, getD_fold_columns _ _ _ _ _ (hrep 1), getD_replicate_self _ _ _ hi]
    congr 1
    apply Finset.sum_congr rfl
    intro j hj
    rw [pow_succ]
    ring
  · rw [sum_out_bar_fold, getD_fold_columns _ _ _ _ _ hpad, getD_castPad _ _ _ hi]
    congr 1
    apply Finset.sum_congr rfl
    intro j hj
    rw [pow_succ]
    ring

/-- Witness for C3 at a concrete input over the rationals. -/
theorem groupby_prover_fold_vectors_witness :
    (0 < 2
    ∧ ((g_in_fold 2 (2 : ℚ) 3 [[5, 7]]).getD 0 0
        = 2 + ∑ j ∈ Finset.range 1, (3 : ℚ) ^ j * (([[5, 7]].getD j []).getD 0 0)
      ∧ (g_out_bar_fold 2 (2 : ℚ) 3 []).getD 0 0
        = 2 + ∑ j ∈ Finset.range 0, (3 : ℚ) ^ j * ((([] : List (List ℚ)).getD j []).getD 0 0)
      ∧ (sum_in_fold 2 (3 : ℚ) []).getD 0 0
        = 1 + ∑ j ∈ Finset.range 0, (3 : ℚ) ^ (j + 1) * ((([] : List (List ℚ)).getD j []).getD 0 0)
      ∧ (sum_out_bar_fold 2 (3 : ℚ) [] [4]).getD 0 0
        = ((([4] : List Int).getD 0 0 : Int) : ℚ)
          + ∑ j ∈ Finset.range 0, (3 : ℚ) ^ (j + 1) * ((([] : List (List ℚ)).getD j []).getD 0 0))) :=
  ⟨by decide, groupby_prover_fold_vectors 2 2 3 [[5, 7]] [] [] [] [4] 0 (by decide)⟩

/-- C5: in `prove_group_by`, `gInStar` is the elementwise multiplicative
inverse of `gInFold` and `gOutStar[k]` is the inverse of `gOutFold[k]` for
`k < m`, computed by batch inversion, while every zero-padding position
`k ≥ m` of `gOutStar` holds `α⁻¹`; when the challenge `α` is not the additive
identity the inversion-failure branch is unreachable and the prover pass
completes. -/
theorem groupby_prover_star_vectors (b : ProofBuilder S) (alpha beta : S)
    (g_in sum_in : List (List S)) (sel_in : List Bool)
    (g_out sum_out : List (List S)) (count_out : List Int)
    (halpha : alpha ≠ 0) :
    (∃ b2, prove_group_by b alpha beta g_in sum_in sel_in g_out sum_out count_out
        = some b2)
    ∧ (∀ i, (g_in_star b.table_length alpha beta g_in).getD i 0
        = ((g_in_fold b.table_length alpha beta g_in).getD i 0)⁻¹)
    ∧ (∀ k, k < count_out.length →
        (g_out_star b.table_length count_out.length alpha⁻¹ alpha beta g_out).getD k 0
          = ((g_out_bar_fold b.table_length alpha beta g_out).getD k 0)⁻¹)
    ∧ (∀ k, count_out.length ≤ k → k < b.table_length →
        (g_out_star b.table_length count_out.length alpha⁻¹ alpha beta g_out).getD k 0
          = alpha⁻¹) := by
  set n := b.table_length with hn
  set m := count_out.length with hm
  have hgoflen : (g_out_bar_fold n alpha beta g_out).length = n := by
    rw [g_out_bar_fold, length_fold_columns]
    simp
  refine ⟨?_, ?_, ?_, ?_⟩
  · simp only [prove_group_by, scalarInv, if_neg halpha]
    exact ⟨_, rfl⟩
  · intro i
    rw [g_in_star, getD_batch_inversion]
  · intro k hk
    rw [g_out_star]
    by_cases hkn : k < n
    · rw [getD_append_lt _ _ _ _ (by simp [batch_inversion, List.length_take, hgoflen]; omega)]
      rw [getD_batch_inversion, getD_take_lt _ _ _ _ hk]
    · have h1 : ((batch_inversion ((g_out_bar_fold n alpha beta g_out).take m)).length) ≤ k := by
        simp [batch_inversion, List.length_take, hgoflen]
        omega
      rw [getD_append_ge _ _ _ _ h1]
      rw [getD_oob _ _ _ (by simp; omega)]
      rw [getD_oob _ _ _ (by rw [hgoflen]; omega)]
      rw [inv_zero]
  · intro k hkm hkn
    rw [g_out_star]
    have hfirst : ((batch_inversion ((g_out_bar_fold n alpha beta g_out).take m)).length) = m := by
      simp [batch_inversion, List.length_take, hgoflen]
      omega
    rw [getD_append_ge _ _ _ _ (by rw [hfirst]; exact hkm)]
    rw [hfirst]
    exact getD_replicate_self _ _ _ (by omega)

/-- Witness for C5 at a concrete input over the rationals. -/
theorem groupby_prover_star_vectors_witness :
    ((1 : ℚ) ≠ 0
    ∧ ((∃ b2, prove_group_by
          ({ table_length := 2, challenges := fun _ => 1,
             num_challenges_consumed := 0, events := [] } : ProofBuilder ℚ)
          (1 : ℚ) 3 [[5, 7]] [] [true, false] [[5]] [] [1] = some b2)
      ∧ (∀ i, (g_in_star 2 (1 : ℚ) 3 [[5, 7]]).getD i 0
          = ((g_in_fold 2 (1 : ℚ) 3 [[5, 7]]).getD i 0)⁻¹)
      ∧ (∀ k, k < 1 →
          (g_out_star 2 1 (1 : ℚ)⁻¹ 1 3 [[5]]).getD k 0
            = ((g_out_bar_fold 2 (1 : ℚ) 3 [[5]]).getD k 0)⁻¹)
      ∧ (∀ k, 1 ≤ k → k < 2 →
          (g_out_star 2 1 (1 : ℚ)⁻¹ 1 3 [[5]]).getD k 0 = (1 : ℚ)⁻¹))) :=
  ⟨one_ne_zero,
   groupby_prover_star_vectors
     ({ table_length := 2, challenges := fun _ => 1,
        num_challenges_consumed := 0, events := [] } : ProofBuilder ℚ)
     (1 : ℚ) 3 [[5, 7]] [] [true, false] [[5]] [] [1] one_ne_zero⟩

/-- C2: `prove_group_by` first produces the two starred witness vectors, in
the order `gInStar` then `gOutStar`, and then registers exactly three
identities, in order: a `ZeroSum` identity with terms
`+1·(gInStar · selectionMask · sumInFold)` and `−1·(gOutStar · sumOutFold)`,
then an `Identity` constraint `gInStar[i]·gInFold[i] − 1`, then an `Identity`
constraint `gOutStar[i]·gOutFold[i] − 1`; the per-row meanings of the three
registered term lists are spelled out by the `termsEval` conjuncts. -/
theorem groupby_prover_identity_registration (b : ProofBuilder S) (alpha beta : S)
    (g_in sum_in : List (List S)) (sel_in : List Bool)
    (g_out sum_out : List (List S)) (count_out : List Int)
    (halpha : alpha ≠ 0) :
    (∃ b2,
      prove_group_by b alpha beta g_in sum_in sel_in g_out sum_out count_out = some b2
      ∧ b2.events = b.events ++
          [ProverEvent.mle (g_in_star b.table_length alpha beta g_in),
           ProverEvent.mle
             (g_out_star b.table_length count_out.length alpha⁻¹ alpha beta g_out),
           ProverEvent.subpoly SumcheckSubpolynomialType.ZeroSum
             [(1, [g_in_star b.table_length alpha beta g_in, boolToScalars sel_in,
                   sum_in_fold b.table_length beta sum_in]),
              (-1, [g_out_star b.table_length count_out.length alpha⁻¹ alpha beta g_out,
                    sum_out_bar_fold b.table_length beta sum_out count_out])],
           ProverEvent.subpoly SumcheckSubpolynomialType.Identity
             [(1, [g_in_star b.table_length alpha beta g_in,
                   g_in_fold b.table_length alpha beta g_in]),
              (-1, [])],
           ProverEvent.subpoly SumcheckSubpolynomialType.Identity
             [(1, [g_out_star b.table_length count_out.length alpha⁻¹ alpha beta g_out,
                   g_out_bar_fold b.table_length alpha beta g_out]),
              (-1, [])]])
    ∧ (∀ i, termsEval i
          [(1, [g_in_star b.table_length alpha beta g_in, boolToScalars sel_in,
                sum_in_fold b.table_length beta sum_in]),
           (-1, [g_out_star b.table_length count_out.length alpha⁻¹ alpha beta g_out,
                 sum_out_bar_fold b.table_length beta sum_out count_out])]
        = (g_in_star b.table_length alpha beta g_in).getD i 0
            * (boolToScalars sel_in).getD i 0
            * (sum_in_fold b.table_length beta sum_in).getD i 0
          - (g_out_star b.table_length count_out.length alpha⁻¹ alpha beta g_out).getD i 0
            * (sum_out_bar_fold b.table_length beta sum_out count_out).getD i 0)
    ∧ (∀ i, termsEval i
          [(1, [g_in_star b.table_length alpha beta g_in,
                g_in_fold b.table_length alpha beta g_in]),
           (-1, [])]
        = (g_in_star b.table_length alpha beta g_in).getD i 0
            * (g_in_fold b.table_length alpha beta g_in).getD i 0 - 1)
    ∧ (∀ i, termsEval i
          [(1, [g_out_star b.table_length count_out.length alpha⁻¹ alpha beta g_out,
                g_out_bar_fold b.table_length alpha beta g_out]),
           (-1, [])]
        = (g_out_star b.table_length count_out.length alpha⁻¹ alpha beta g_out).getD i 0
            * (g_out_bar_fold b.table_length alpha beta g_out).getD i 0 - 1) := by
  refine ⟨?_, ?_, ?_, ?_⟩
  · simp only [prove_group_by, scalarInv, if_neg halpha]
    refine ⟨_, rfl, ?_⟩
    simp [ProofBuilder.produce_intermediate_mle,
      ProofBuilder.produce_sumcheck_subpolynomial]
  · intro i
    simp [termsEval, termEval]
    ring
  · intro i
    simp [termsEval, termEval]
    ring
  · intro i
    simp [termsEval, termEval]
    ring

/-- Witness for C2 at a concrete input over the rationals. -/
theorem groupby_prover_identity_registration_witness :
    ((1 : ℚ) ≠ 0
    ∧ ((∃ b2,
        prove_group_by
          ({ table_length := 1, challenges := fun _ => 1,
             num_challenges_consumed := 0, events := [] } : ProofBuilder ℚ)
          1 2 [[3]] [] [true] [[3]] [] [1] = some b2
        ∧ b2.events = [] ++
            [ProverEvent.mle (g_in_star 1 (1 : ℚ) 2 [[3]]),
             ProverEvent.mle (g_out_star 1 1 (1 : ℚ)⁻¹ 1 2 [[3]]),
             ProverEvent.subpoly SumcheckSubpolynomialType.ZeroSum
               [(1, [g_in_star 1 (1 : ℚ) 2 [[3]], boolToScalars [true],
                     sum_in_fold 1 (2 : ℚ) []]),
                (-1, [g_out_star 1 1 (1 : ℚ)⁻¹ 1 2 [[3]],
                      sum_out_bar_fold 1 (2 : ℚ) [] [1]])],
             ProverEvent.subpoly SumcheckSubpolynomialType.Identity
               [(1, [g_in_star 1 (1 : ℚ) 2 [[3]], g_in_fold 1 (1 : ℚ) 2 [[3]]]),
                (-1, [])],
             ProverEvent.subpoly SumcheckSubpolynomialType.Identity
               [(1, [g_out_star 1 1 (1 : ℚ)⁻¹ 1 2 [[3]],
                     g_out_bar_fold 1 (1 : ℚ) 2 [[3]]]),
                (-1, [])]])
      ∧ (∀ i, termsEval i
            [(1, [g_in_star 1 (1 : ℚ) 2 [[3]], boolToScalars [true],
                  sum_in_fold 1 (2 : ℚ) []]),
             (-1, [g_out_star 1 1 (1 : ℚ)⁻¹ 1 2 [[3]],
                   sum_out_bar_fold 1 (2 : ℚ) [] [1]])]
          = (g_in_star 1 (1 : ℚ) 2 [[3]]).getD i 0
              * (boolToScalars [true] : List ℚ).getD i 0
              * (sum_in_fold 1 (2 : ℚ) []).getD i 0
            - (g_out_star 1 1 (1 : ℚ)⁻¹ 1 2 [[3]]).getD i 0
              * (sum_out_bar_fold 1 (2 : ℚ) [] [1]).getD i 0)
      ∧ (∀ i, termsEval i
            [(1, [g_in_star 1 (1 : ℚ) 2 [[3]], g_in_fold 1 (1 : ℚ) 2 [[3]]]),
             (-1, [])]
          = (g_in_star 1 (1 : ℚ) 2 [[3]]).getD i 0
              * (g_in_fold 1 (1 : ℚ) 2 [[3]]).getD i 0 - 1)
      ∧ (∀ i, termsEval i
            [(1, [g_out_star 1 1 (1 : ℚ)⁻¹ 1 2 [[3]],
                  g_out_bar_fold 1 (1 : ℚ) 2 [[3]]]),
             (-1, [])]
          = (g_out_star 1 1 (1 : ℚ)⁻¹ 1 2 [[3]]).getD i 0
              * (g_out_bar_fold 1 (1 : ℚ) 2 [[3]]).getD i 0 - 1))) :=
  ⟨one_ne_zero,
   groupby_prover_identity_registration
     ({ table_length := 1, challenges := fun _ => 1,
        num_challenges_consumed := 0, events := [] } : ProofBuilder ℚ)
     1 2 [[3]] [] [true] [[3]] [] [1] one_ne_zero⟩

theorem consume_result_mles_spec :
    ∀ (k : Nat) (b : VerificationBuilder S),
      b.consume_result_mles k
        = ({ b with num_result_consumed := b.num_result_consumed + k },
           (List.range k).map (fun t => b.result_mles (b.num_result_consumed + t))) := by
  intro k
  induction k with
  | zero => intro b; simp [VerificationBuilder.consume_result_mles]
  | succ k ih =>
    intro b
    rw [VerificationBuilder.consume_result_mles]
    simp only [VerificationBuilder.consume_result_mle, ih]
    rw [Prod.mk.injEq]
    refine ⟨?_, ?_⟩
    · simp
      omega
    · rw [List.range_succ_eq_map, List.map_cons, List.map_map]
      simp only [Nat.add_zero]
      congr 1
      apply List.map_congr_left
      intro t ht
      simp [Function.comp]
      congr 1
      omega

theorem sum_pow_succ_eq_mul_sum (beta : S) (n : Nat) (f : Nat → S) :
    ∑ j ∈ Finset.range n, beta ^ (j + 1) * f j
      = beta * ∑ j ∈ Finset.range n, beta ^ j * f j := by
  rw [Finset.mul_sum]
  apply Finset.sum_congr rfl
  intro j hj
  rw [pow_succ]
  ring

theorem beta_mul_fold_vals (beta : S) (l : List S) :
    beta * fold_vals beta l
      = ∑ j ∈ Finset.range l.length, beta ^ (j + 1) * l.getD j 0 := by
  rw [fold_vals_eq_sum, Finset.mul_sum]
  apply Finset.sum_congr rfl
  intro j hj
  rw [pow_succ]
  ring

/-- C4: for the same `GroupByExpr`, the verify pass mirrors the prove pass:
after the children it consumes the claimed result evaluations of the `M`
group-by columns, the `N` sum columns and the count column from consecutive
stream positions, consumes the two post-result challenges in the order `α`
then `β`, consumes the two claimed witness evaluations in the production
order `gInStar` then `gOutStar`, and registers exactly the three identity
evaluations dictated by the spec folding formulas (the constant terms scaled
by the all-ones evaluation, the two `Identity` evaluations multiplied by the
random per-row selector evaluation), in the same order as the prover
registrations. -/
theorem groupby_verifier_mirrors_prover (e : GroupByExpr S)
    (b0 b1 b2 b3 : VerificationBuilder S) (where_eval : S)
    (group_by_evals aggregate_evals : List S) (iv : S)
    (hW : e.where_clause.verifierFn b0 = (b1, .ok where_eval))
    (hG : runChildrenV e.group_by_exprs b1 = (b2, .ok group_by_evals))
    (hS : runChildrenV (e.sum_expr.map (fun p => p.1)) b2 = (b3, .ok aggregate_evals))
    (hI : b3.result_indexes_evaluation = some iv) :
    ∃ b4, e.verifier_evaluate b0 = (b4, .ok ())
      ∧ b4.subpoly_evals = b3.subpoly_evals
          ++ spec_group_by_identity_evals b3.one_evaluation b3.random_evaluation
               (b3.challenges b3.num_challenges_consumed)
               (b3.challenges (b3.num_challenges_consumed + 1))
               group_by_evals aggregate_evals where_eval
               ((List.range e.group_by_exprs.length).map
                 (fun t => b3.result_mles (b3.num_result_consumed + t)))
               ((List.range e.sum_expr.length).map
                 (fun t => b3.result_mles
                   (b3.num_result_consumed + e.group_by_exprs.length + t)))
               (b3.result_mles
                 (b3.num_result_consumed + e.group_by_exprs.length + e.sum_expr.length))
               (b3.intermediate_mles b3.num_intermediate_consumed)
               (b3.intermediate_mles (b3.num_intermediate_consumed + 1))
      ∧ b4.num_result_consumed
          = b3.num_result_consumed + (e.group_by_exprs.length + e.sum_expr.length + 1)
      ∧ b4.num_challenges_consumed = b3.num_challenges_consumed + 2
      ∧ b4.num_intermediate_consumed = b3.num_intermediate_consumed + 2
      ∧ b4.one_evaluation = b3.one_evaluation
      ∧ b4.random_evaluation = b3.random_evaluation
      ∧ b4.result_indexes_evaluation = b3.result_indexes_evaluation := by
  simp only [GroupByExpr.verifier_evaluate, hW, hG, hS, hI]
  simp only [consume_result_mles_spec, VerificationBuilder.consume_result_mle,
    VerificationBuilder.consume_post_result_challenge, verify_group_by,
    VerificationBuilder.consume_intermediate_mle,
    VerificationBuilder.produce_sumcheck_subpolynomial_evaluation]
  refine ⟨_, rfl, ?_, ?_, ?_, ?_, ?_, ?_, ?_⟩
  · simp only [spec_group_by_identity_evals]
    rw [List.append_assoc, List.append_assoc]
    congr 1
    simp only [List.singleton_append, List.cons_append, List.nil_append]
    simp only [fold_vals_eq_sum, List.length_map, List.length_range]
    simp only [sum_pow_succ_eq_mul_sum]
  · simp
    omega
  · simp
  · simp
  · simp
  · simp
  · simp [hI]

/-- Witness for C4 at the concrete sample node and builder. -/
theorem groupby_verifier_mirrors_prover_witness :
    (sampleGroupBy.where_clause.verifierFn sampleVB = (sampleVB, .ok 1)
    ∧ runChildrenV sampleGroupBy.group_by_exprs sampleVB = (sampleVB, .ok [1])
    ∧ runChildrenV (sampleGroupBy.sum_expr.map (fun p => p.1)) sampleVB
        = (sampleVB, .ok [])
    ∧ sampleVB.result_indexes_evaluation = some 1
    ∧ (∃ b4, sampleGroupBy.verifier_evaluate sampleVB = (b4, .ok ())
        ∧ b4.subpoly_evals = sampleVB.subpoly_evals
            ++ spec_group_by_identity_evals sampleVB.one_evaluation
                 sampleVB.random_evaluation
                 (sampleVB.challenges sampleVB.num_challenges_consumed)
                 (sampleVB.challenges (sampleVB.num_challenges_consumed + 1))
                 [1] [] 1
                 ((List.range sampleGroupBy.group_by_exprs.length).map
                   (fun t => sampleVB.result_mles (sampleVB.num_result_consumed + t)))
                 ((List.range sampleGroupBy.sum_expr.length).map
                   (fun t => sampleVB.result_mles
                     (sampleVB.num_result_consumed
                       + sampleGroupBy.group_by_exprs.length + t)))
                 (sampleVB.result_mles
                   (sampleVB.num_result_consumed + sampleGroupBy.group_by_exprs.length
                     + sampleGroupBy.sum_expr.length))
                 (sampleVB.intermediate_mles sampleVB.num_intermediate_consumed)
                 (sampleVB.intermediate_mles (sampleVB.num_intermediate_consumed + 1))
        ∧ b4.num_result_consumed
            = sampleVB.num_result_consumed
              + (sampleGroupBy.group_by_exprs.length + sampleGroupBy.sum_expr.length + 1)
        ∧ b4.num_challenges_consumed = sampleVB.num_challenges_consumed + 2
        ∧ b4.num_intermediate_consumed = sampleVB.num_intermediate_consumed + 2
        ∧ b4.one_evaluation = sampleVB.one_evaluation
        ∧ b4.random_evaluation = sampleVB.random_evaluation
        ∧ b4.result_indexes_evaluation = sampleVB.result_indexes_evaluation)) :=
  ⟨rfl, rfl, rfl, rfl,
   groupby_verifier_mirrors_prover sampleGroupBy sampleVB sampleVB sampleVB sampleVB
     1 [1] [] 1 rfl rfl rfl rfl⟩

/-- C7: when the index-set evaluation is absent, `GroupByExpr::verifier_evaluate`
returns the recoverable verification error with the builder exactly as the
children left it, so the node registers no identity evaluation; when the
index-set evaluation is present and all child evaluations succeed, it returns
success. -/
theorem groupby_verifier_missing_indexes (e : GroupByExpr S)
    (b0 b1 b2 b3 : VerificationBuilder S) (where_eval : S)
    (group_by_evals aggregate_evals : List S)
    (hW : e.where_clause.verifierFn b0 = (b1, .ok where_eval))
    (hG : runChildrenV e.group_by_exprs b1 = (b2, .ok group_by_evals))
    (hS : runChildrenV (e.sum_expr.map (fun p => p.1)) b2 = (b3, .ok aggregate_evals)) :
    (b3.result_indexes_evaluation = none →
      e.verifier_evaluate b0
        = (b3, .error (ProofError.VerificationError "invalid indexes")))
    ∧ (∀ iv, b3.result_indexes_evaluation = some iv →
        ∃ b4, e.verifier_evaluate b0 = (b4, .ok ())) := by
  constructor
  · intro h
    simp only [GroupByExpr.verifier_evaluate, hW, hG, hS, h]
  · intro iv h
    simp only [GroupByExpr.verifier_evaluate, hW, hG, hS, h]
    simp only [consume_result_mles_spec, VerificationBuilder.consume_result_mle,
      VerificationBuilder.consume_post_result_challenge, verify_group_by,
      VerificationBuilder.consume_intermediate_mle,
      VerificationBuilder.produce_sumcheck_subpolynomial_evaluation]
    exact ⟨_, rfl⟩

/-- Witness for C7 at the concrete sample node and the builder without an
index-set evaluation. -/
theorem groupby_verifier_missing_indexes_witness :
    (sampleGroupBy.where_clause.verifierFn sampleVBNoIndexes
        = (sampleVBNoIndexes, .ok 1)
    ∧ runChildrenV sampleGroupBy.group_by_exprs sampleVBNoIndexes
        = (sampleVBNoIndexes, .ok [1])
    ∧ runChildrenV (sampleGroupBy.sum_expr.map (fun p => p.1)) sampleVBNoIndexes
        = (sampleVBNoIndexes, .ok [])
    ∧ ((sampleVBNoIndexes.result_indexes_evaluation = none →
        sampleGroupBy.verifier_evaluate sampleVBNoIndexes
          = (sampleVBNoIndexes, .error (ProofError.VerificationError "invalid indexes")))
      ∧ (∀ iv, sampleVBNoIndexes.result_indexes_evaluation = some iv →
          ∃ b4, sampleGroupBy.verifier_evaluate sampleVBNoIndexes = (b4, .ok ())))) :=
  ⟨rfl, rfl, rfl,
   groupby_verifier_missing_indexes sampleGroupBy sampleVBNoIndexes sampleVBNoIndexes
     sampleVBNoIndexes sampleVBNoIndexes 1 [1] [] rfl rfl rfl⟩

theorem foldl_produce_result_columns (cols : List (Column S)) :
    ∀ b : ResultBuilder S,
      cols.foldl ResultBuilder.produce_result_column b
        = { b with result_columns := b.result_columns ++ cols } := by
  induction cols with
  | nil => intro b; simp
  | cons c cols ih =>
    intro b
    rw [List.foldl_cons, ih]
    simp [ResultBuilder.produce_result_column]

theorem aggregate_columns_lengths (gcols scols : List (Column S)) (sel : List Bool) :
    (aggregate_columns gcols scols sel).group_by_columns.length = gcols.length
    ∧ (aggregate_columns gcols scols sel).sum_columns.length = scols.length
    ∧ (∀ c ∈ (aggregate_columns gcols scols sel).group_by_columns,
        c.length = (aggregate_columns gcols scols sel).count_column.length)
    ∧ (∀ c ∈ (aggregate_columns gcols scols sel).sum_columns,
        c.length = (aggregate_columns gcols scols sel).count_column.length) := by
  refine ⟨by simp [aggregate_columns], by simp [aggregate_columns], ?_, ?_⟩
  · intro c hc
    simp only [aggregate_columns, List.mem_map] at hc
    obtain ⟨j, hj, rfl⟩ := hc
    simp [aggregate_columns]
  · intro c hc
    simp only [aggregate_columns, List.mem_map] at hc
    obtain ⟨x, hx, rfl⟩ := hc
    simp [aggregate_columns]

theorem result_evaluate_shape (e : GroupByExpr S) (b : ResultBuilder S)
    (selection : List Bool)
    (hsel : (e.where_clause.resultFn b.table_length).as_boolean = some selection) :
    ∃ b2, e.result_evaluate b = some b2
      ∧ b2.result_index_set
          = some (Indexes.dense 0
              (aggregate_columns (e.group_by_exprs.map (fun c => c.resultFn b.table_length))
                (e.sum_expr.map (fun p => p.1.resultFn b.table_length))
                selection).count_column.length)
      ∧ b2.num_index_set_calls = b.num_index_set_calls + 1
      ∧ b2.result_columns = b.result_columns
          ++ ((aggregate_columns (e.group_by_exprs.map (fun c => c.resultFn b.table_length))
                (e.sum_expr.map (fun p => p.1.resultFn b.table_length))
                selection).group_by_columns.map Column.scalars
              ++ (aggregate_columns (e.group_by_exprs.map (fun c => c.resultFn b.table_length))
                  (e.sum_expr.map (fun p => p.1.resultFn b.table_length))
                  selection).sum_columns.map Column.scalars
              ++ [Column.bigint
                  (aggregate_columns (e.group_by_exprs.map (fun c => c.resultFn b.table_length))
                    (e.sum_expr.map (fun p => p.1.resultFn b.table_length))
                    selection).count_column])
      ∧ b2.result_columns.length
          = b.result_columns.length + (e.group_by_exprs.length + e.sum_expr.length + 1)
      ∧ (∀ c ∈ ((aggregate_columns (e.group_by_exprs.map (fun c => c.resultFn b.table_length))
                  (e.sum_expr.map (fun p => p.1.resultFn b.table_length))
                  selection).group_by_columns.map Column.scalars
              ++ (aggregate_columns (e.group_by_exprs.map (fun c => c.resultFn b.table_length))
                  (e.sum_expr.map (fun p => p.1.resultFn b.table_length))
                  selection).sum_columns.map Column.scalars
              ++ [Column.bigint
                  (aggregate_columns (e.group_by_exprs.map (fun c => c.resultFn b.table_length))
                    (e.sum_expr.map (fun p => p.1.resultFn b.table_length))
                    selection).count_column]),
          c.len = (aggregate_columns (e.group_by_exprs.map (fun c => c.resultFn b.table_length))
                    (e.sum_expr.map (fun p => p.1.resultFn b.table_length))
                    selection).count_column.length)
      ∧ b2.num_post_result_challenges = b.num_post_result_challenges + 2 := by
  simp only [GroupByExpr.result_evaluate, hsel]
  simp only [foldl_produce_result_columns, ResultBuilder.set_result_indexes,
    ResultBuilder.produce_result_column, ResultBuilder.request_post_result_challenges]
  obtain ⟨hg, hs, hgc, hsc⟩ := aggregate_columns_lengths
    (e.group_by_exprs.map (fun c => c.resultFn b.table_length))
    (e.sum_expr.map (fun p => p.1.resultFn b.table_length)) selection
  refine ⟨_, rfl, by simp, by simp, by simp, ?_, ?_, by simp⟩
  · simp only [List.length_append, List.length_map, List.length_cons, List.length_nil]
    rw [hg, hs]
    simp
    omega
  · intro c hc
    rcases List.mem_append.mp hc with hc1 | hc2
    · rcases List.mem_append.mp hc1 with hc3 | hc4
      · obtain ⟨l, hl, rfl⟩ := List.mem_map.mp hc3
        simpa [Column.len] using hgc l hl
      · obtain ⟨l, hl, rfl⟩ := List.mem_map.mp hc4
        simpa [Column.len] using hsc l hl
    · simp only [List.mem_singleton] at hc2
      subst hc2
      simp [Column.len]

/-- C6: `GroupByExpr::result_evaluate` sets the result index set exactly once,
to the dense contiguous range `[0, m)` with `m` the length of the aggregated
count column, and produces exactly `M + N + 1` result columns in the order
group-by columns, sum columns, count column, every produced column having
length `m`. -/
theorem groupby_result_evaluate_spec (e : GroupByExpr S) (b : ResultBuilder S)
    (selection : List Bool)
    (hsel : (e.where_clause.resultFn b.table_length).as_boolean = some selection) :
    ∃ b2, e.result_evaluate b = some b2
      ∧ b2.result_index_set
          = some (Indexes.dense 0
              (aggregate_columns (e.group_by_exprs.map (fun c => c.resultFn b.table_length))
                (e.sum_expr.map (fun p => p.1.resultFn b.table_length))
                selection).count_column.length)
      ∧ b2.num_index_set_calls = b.num_index_set_calls + 1
      ∧ b2.result_columns = b.result_columns
          ++ ((aggregate_columns (e.group_by_exprs.map (fun c => c.resultFn b.table_length))
                (e.sum_expr.map (fun p => p.1.resultFn b.table_length))
                selection).group_by_columns.map Column.scalars
              ++ (aggregate_columns (e.group_by_exprs.map (fun c => c.resultFn b.table_length))
                  (e.sum_expr.map (fun p => p.1.resultFn b.table_length))
                  selection).sum_columns.map Column.scalars
              ++ [Column.bigint
                  (aggregate_columns (e.group_by_exprs.map (fun c => c.resultFn b.table_length))
                    (e.sum_expr.map (fun p => p.1.resultFn b.table_length))
                    selection).count_column])
      ∧ b2.result_columns.length
          = b.result_columns.length + (e.group_by_exprs.length + e.sum_expr.length + 1)
      ∧ (∀ c ∈ ((aggregate_columns (e.group_by_exprs.map (fun c => c.resultFn b.table_length))
                  (e.sum_expr.map (fun p => p.1.resultFn b.table_length))
                  selection).group_by_columns.map Column.scalars
              ++ (aggregate_columns (e.group_by_exprs.map (fun c => c.resultFn b.table_length))
                  (e.sum_expr.map (fun p => p.1.resultFn b.table_length))
                  selection).sum_columns.map Column.scalars
              ++ [Column.bigint
                  (aggregate_columns (e.group_by_exprs.map (fun c => c.resultFn b.table_length))
                    (e.sum_expr.map (fun p => p.1.resultFn b.table_length))
                    selection).count_column]),
          c.len = (aggregate_columns (e.group_by_exprs.map (fun c => c.resultFn b.table_length))
                    (e.sum_expr.map (fun p => p.1.resultFn b.table_length))
                    selection).count_column.length)
      ∧ b2.num_post_result_challenges = b.num_post_result_challenges + 2 :=
  result_evaluate_shape e b selection hsel

/-- Witness for C6 at the concrete sample node and builder. -/
theorem groupby_result_evaluate_spec_witness :
    ((sampleGroupBy.where_clause.resultFn sampleRB.table_length).as_boolean
        = some [true]
    ∧ ∃ b2, sampleGroupBy.result_evaluate sampleRB = some b2
        ∧ b2.result_index_set
            = some (Indexes.dense 0
                (aggregate_columns
                  (sampleGroupBy.group_by_exprs.map
                    (fun c => c.resultFn sampleRB.table_length))
                  (sampleGroupBy.sum_expr.map
                    (fun p => p.1.resultFn sampleRB.table_length))
                  [true]).count_column.length)
        ∧ b2.num_index_set_calls = sampleRB.num_index_set_calls + 1) := by
  have h := groupby_result_evaluate_spec sampleGroupBy sampleRB [true] rfl
  obtain ⟨b2, h1, h2, h3, _⟩ := h
  exact ⟨rfl, b2, h1, h2, h3⟩

/-- C9: `get_column_result_fields` returns exactly `M + N + 1` fields, in the
order group-by column fields, sum output fields, then the count alias typed as
`BigInt`; this is the same count and segment order as the result columns
produced by `result_evaluate`, whose group-by segment, sum segment and count
segment have the matching lengths `M`, `N` and `1`. -/
theorem groupby_result_fields_match (e : GroupByExpr S) (b : ResultBuilder S)
    (selection : List Bool)
    (hsel : (e.where_clause.resultFn b.table_length).as_boolean = some selection) :
    e.get_column_result_fields
      = (e.group_by_exprs.map (fun c => c.column_field))
        ++ (e.sum_expr.map (fun p => p.2))
        ++ [{ name := e.count_alias, column_type := ColumnType.BigInt }]
    ∧ e.get_column_result_fields.length
        = e.group_by_exprs.length + e.sum_expr.length + 1
    ∧ ∃ b2, e.result_evaluate b = some b2
        ∧ b2.result_columns.length
            = b.result_columns.length + e.get_column_result_fields.length
        ∧ b2.result_columns
            = b.result_columns
              ++ ((aggregate_columns
                    (e.group_by_exprs.map (fun c => c.resultFn b.table_length))
                    (e.sum_expr.map (fun p => p.1.resultFn b.table_length))
                    selection).group_by_columns.map Column.scalars
                  ++ (aggregate_columns
                      (e.group_by_exprs.map (fun c => c.resultFn b.table_length))
                      (e.sum_expr.map (fun p => p.1.resultFn b.table_length))
                      selection).sum_columns.map Column.scalars
                  ++ [Column.bigint
                      (aggregate_columns
                        (e.group_by_exprs.map (fun c => c.resultFn b.table_length))
                        (e.sum_expr.map (fun p => p.1.resultFn b.table_length))
                        selection).count_column])
        ∧ ((aggregate_columns
              (e.group_by_exprs.map (fun c => c.resultFn b.table_length))
              (e.sum_expr.map (fun p => p.1.resultFn b.table_length))
              selection).group_by_columns.map Column.scalars).length
            = (e.group_by_exprs.map (fun c => c.column_field)).length
        ∧ ((aggregate_columns
              (e.group_by_exprs.map (fun c => c.resultFn b.table_length))
              (e.sum_expr.map (fun p => p.1.resultFn b.table_length))
              selection).sum_columns.map Column.scalars).length
            = (e.sum_expr.map (fun p => p.2)).length := by
  obtain ⟨hg, hs, hgc, hsc⟩ := aggregate_columns_lengths
    (e.group_by_exprs.map (fun c => c.resultFn b.table_length))
    (e.sum_expr.map (fun p => p.1.resultFn b.table_length)) selection
  obtain ⟨b2, h1, h2, h3, h4, h5, h6, h7⟩ :=
    result_evaluate_shape e b selection hsel
  refine ⟨rfl, ?_, b2, h1, ?_, h4, ?_, ?_⟩
  · simp [GroupByExpr.get_column_result_fields]
    omega
  · rw [h5]
    congr 1
    simp [GroupByExpr.get_column_result_fields]
    omega
  · simp only [List.length_map]
    rw [hg]
    simp
  · simp only [List.length_map]
    rw [hs]
    simp

/-- Witness for C9 at the concrete sample node and builder. -/
theorem groupby_result_fields_match_witness :
    ((sampleGroupBy.where_clause.resultFn sampleRB.table_length).as_boolean
        = some [true]
    ∧ sampleGroupBy.get_column_result_fields.length
        = sampleGroupBy.group_by_exprs.length + sampleGroupBy.sum_expr.length + 1) := by
  have h := groupby_result_fields_match sampleGroupBy sampleRB [true] rfl
  exact ⟨rfl, h.2.1⟩

/-- C8: `QueryContext::is_in_group_by_exprs` answers `Ok(false)` when the
group-by list is empty, the check occurs inside aggregation scope or outside
result scope; otherwise it answers `Ok(true)` exactly for identifiers in the
group-by list and raises `InvalidGroupByColumnRef` for all others. -/
theorem query_context_is_in_group_by_exprs_spec (q : QueryContext) (column : String) :
    ((q.group_by_exprs.isEmpty || q.is_in_agg_scope || !q.is_in_result_scope) = true →
      q.is_in_group_by_exprs column = .ok false)
    ∧ ((q.group_by_exprs.isEmpty || q.is_in_agg_scope || !q.is_in_result_scope) = false →
        (column ∈ q.group_by_exprs → q.is_in_group_by_exprs column = .ok true)
        ∧ (column ∉ q.group_by_exprs →
            q.is_in_group_by_exprs column
              = .error (ConversionError.InvalidGroupByColumnRef column))) := by
  constructor
  · intro h
    simp [QueryContext.is_in_group_by_exprs, h]
  · intro h
    constructor
    · intro hmem
      have hfind : ∃ x, q.group_by_exprs.find? (fun g => g == column) = some x := by
        have : (q.group_by_exprs.find? (fun g => g == column)).isSome := by
          rw [List.find?_isSome]
          exact ⟨column, hmem, by simp⟩
        exact Option.isSome_iff_exists.mp this
      obtain ⟨x, hx⟩ := hfind
      simp [QueryContext.is_in_group_by_exprs, h, hx]
    · intro hmem
      have hfind : q.group_by_exprs.find? (fun g => g == column) = none := by
        rw [List.find?_eq_none]
        intro x hx
        simp only [beq_iff_eq]
        intro hxe
        exact hmem (hxe ▸ hx)
      simp [QueryContext.is_in_group_by_exprs, h, hfind]

theorem is_integer_iff_dvd (d : BigDecimal) :
    d.is_integer = true ↔ ((10 : Int) ^ d.scale ∣ d.int_val) := by
  rw [BigDecimal.is_integer, beq_iff_eq]
  exact ⟨Int.dvd_of_emod_eq_zero, Int.emod_eq_zero_of_dvd⟩

/-- C10: converting an `IntermediateDecimal` to a 64-bit (and likewise to a
128-bit) signed integer returns `LossyCast` whenever the stored value has a
non-zero fractional part, `OutOfRange` whenever the value is an integer that
does not fit the target range, and otherwise `Ok` with the exact integer
value, i.e. the quotient `q` with `q * 10 ^ scale = int_val`. -/
theorem intermediate_decimal_try_from_spec (d : IntermediateDecimal) :
    (¬ ((10 : Int) ^ d.value.scale ∣ d.value.int_val) →
      i64_try_from d = .error .LossyCast ∧ i128_try_from d = .error .LossyCast)
    ∧ ((10 : Int) ^ d.value.scale ∣ d.value.int_val →
        d.value.intQuot * (10 : Int) ^ d.value.scale = d.value.int_val
        ∧ ((-(2 ^ 63) ≤ d.value.intQuot ∧ d.value.intQuot ≤ 2 ^ 63 - 1) →
            i64_try_from d = .ok d.value.intQuot)
        ∧ (¬ (-(2 ^ 63) ≤ d.value.intQuot ∧ d.value.intQuot ≤ 2 ^ 63 - 1) →
            i64_try_from d = .error .OutOfRange)
        ∧ ((-(2 ^ 127) ≤ d.value.intQuot ∧ d.value.intQuot ≤ 2 ^ 127 - 1) →
            i128_try_from d = .ok d.value.intQuot)
        ∧ (¬ (-(2 ^ 127) ≤ d.value.intQuot ∧ d.value.intQuot ≤ 2 ^ 127 - 1) →
            i128_try_from d = .error .OutOfRange)) := by
  constructor
  · intro h
    have hint : d.value.is_integer = false := by
      rcases Bool.eq_false_or_eq_true d.value.is_integer with ht | hf
      · exact absurd ((is_integer_iff_dvd d.value).mp ht) h
      · exact hf
    constructor
    · simp [i64_try_from, hint]
    · simp [i128_try_from, hint]
  · intro h
    have hint : d.value.is_integer = true := (is_integer_iff_dvd d.value).mpr h
    have hto64 : (-(2 ^ 63) ≤ d.value.intQuot ∧ d.value.intQuot ≤ 2 ^ 63 - 1) →
        d.value.to_i64 = some d.value.intQuot := by
      intro hr
      rw [BigDecimal.to_i64, if_pos hr]
    have hto128 : (-(2 ^ 127) ≤ d.value.intQuot ∧ d.value.intQuot ≤ 2 ^ 127 - 1) →
        d.value.to_i128 = some d.value.intQuot := by
      intro hr
      rw [BigDecimal.to_i128, if_pos hr]
    refine ⟨Int.ediv_mul_cancel h, ?_, ?_, ?_, ?_⟩
    · intro hr
      simp only [i64_try_from, hint, Bool.not_true, BigDecimal.to_i64]
      rw [if_neg (by simp), if_pos hr]
      show (if -(2 ^ 63) ≤ d.value.intQuot ∧ d.value.intQuot ≤ 2 ^ 63 - 1 then
          Except.ok d.value.intQuot
        else Except.error DecimalError.OutOfRange) = Except.ok d.value.intQuot
      rw [if_pos hr]
    · intro hr
      simp only [i64_try_from, hint, Bool.not_true, BigDecimal.to_i64]
      rw [if_neg (by simp), if_neg hr]
    · intro hr
      simp only [i128_try_from, hint, Bool.not_true, BigDecimal.to_i128]
      rw [if_neg (by simp), if_pos hr]
      show (if -(2 ^ 127) ≤ d.value.intQuot ∧ d.value.intQuot ≤ 2 ^ 127 - 1 then
          Except.ok d.value.intQuot
        else Except.error DecimalError.OutOfRange) = Except.ok d.value.intQuot
      rw [if_pos hr]
    · intro hr
      simp only [i128_try_from, hint, Bool.not_true, BigDecimal.to_i128]
      rw [if_neg (by simp), if_neg hr]

theorem countChildren_spec {cs : List (ChildExpr S)} {ks : List ChildCounts}
    (hf : List.Forall₂ ChildHasCounts cs ks) :
    ∀ b : CountBuilder,
      countChildren cs b
        = .ok { result_columns := b.result_columns + cs.length,
                intermediate_mles := b.intermediate_mles + (ChildCounts.total ks).mles,
                subpolynomials := b.subpolynomials + (ChildCounts.total ks).subpolys,
                degree := max b.degree (ChildCounts.total ks).degree,
                post_result_challenges :=
                  b.post_result_challenges + (ChildCounts.total ks).challenges } := by
  induction hf with
  | nil =>
    intro b
    cases b
    simp [countChildren, ChildCounts.total, zeroCounts]
  | @cons c k cs ks hck hrest ih =>
    intro b
    simp only [countChildren, hck.1 b, ih]
    simp only [CountBuilder.count_result_columns, CountBuilder.addChild,
      ChildCounts.total, List.foldr_cons, List.length_cons]
    congr 1
    simp only [CountBuilder.mk.injEq]
    refine ⟨by omega, by omega, by omega, ?_, by omega⟩
    rw [← ChildCounts.total]
    exact max_assoc b.degree k.degree (ChildCounts.total ks).degree

theorem runChildrenP_counts {cs : List (ChildExpr S)} {ks : List ChildCounts}
    (hf : List.Forall₂ ChildHasCounts cs ks) :
    ∀ b : ProofBuilder S,
      (runChildrenP cs b).1.numMles = b.numMles + (ChildCounts.total ks).mles
      ∧ (runChildrenP cs b).1.numSubpolys
          = b.numSubpolys + (ChildCounts.total ks).subpolys
      ∧ (runChildrenP cs b).1.num_challenges_consumed
          = b.num_challenges_consumed + (ChildCounts.total ks).challenges
      ∧ (runChildrenP cs b).1.table_length = b.table_length
      ∧ (runChildrenP cs b).1.challenges = b.challenges := by
  induction hf with
  | nil =>
    intro b
    simp [runChildrenP, ChildCounts.total, zeroCounts]
  | @cons c k cs ks hck hrest ih =>
    intro b
    have hfst : (runChildrenP (c :: cs) b).1 = (runChildrenP cs (c.proverFn b).1).1 := rfl
    obtain ⟨hm, hp, hc, htl, hch⟩ := hck.2.1 b
    obtain ⟨im, ip, ic, itl, ich⟩ := ih (c.proverFn b).1
    rw [hfst]
    simp only [ChildCounts.total, List.foldr_cons]
    rw [← ChildCounts.total]
    refine ⟨?_, ?_, ?_, ?_, ?_⟩
    · rw [im, hm]; omega
    · rw [ip, hp]; omega
    · rw [ic, hc]; omega
    · rw [itl, htl]
    · rw [ich, hch]

theorem runChildrenV_counts {cs : List (ChildExpr S)} {ks : List ChildCounts}
    (hf : List.Forall₂ ChildHasCounts cs ks) :
    ∀ b : VerificationBuilder S,
      ∃ b2 vs, runChildrenV cs b = (b2, .ok vs)
        ∧ b2.num_result_consumed = b.num_result_consumed
        ∧ b2.num_intermediate_consumed
            = b.num_intermediate_consumed + (ChildCounts.total ks).mles
        ∧ b2.num_challenges_consumed
            = b.num_challenges_consumed + (ChildCounts.total ks).challenges
        ∧ b2.subpoly_evals.length
            = b.subpoly_evals.length + (ChildCounts.total ks).subpolys
        ∧ b2.result_indexes_evaluation = b.result_indexes_evaluation := by
  induction hf with
  | nil =>
    intro b
    exact ⟨b, [], rfl, rfl, by simp [ChildCounts.total, zeroCounts],
      by simp [ChildCounts.total, zeroCounts],
      by simp [ChildCounts.total, zeroCounts], rfl⟩
  | @cons c k cs ks hck hrest ih =>
    intro b
    obtain ⟨⟨v, hv⟩, hr, hm, hc, hs, hi⟩ := hck.2.2 b
    have hpair : c.verifierFn b = ((c.verifierFn b).1, Except.ok v) := by
      rw [← hv]
    obtain ⟨b2, vs, hrun, ir, im, ic, is2, ii⟩ := ih (c.verifierFn b).1
    refine ⟨b2, v :: vs, ?_, ?_, ?_, ?_, ?_, ?_⟩
    · have h1 : runChildrenV (c :: cs) b
          = (match c.verifierFn b with
             | (b1, Except.error e) => (b1, Except.error e)
             | (b1, Except.ok v2) =>
               match runChildrenV cs b1 with
               | (bb, Except.error e) => (bb, Except.error e)
               | (bb, Except.ok vs2) => (bb, Except.ok (v2 :: vs2))) := rfl
      rw [h1, hpair]
      show (match runChildrenV cs (c.verifierFn b).1 with
            | (bb, Except.error e) => (bb, Except.error e)
            | (bb, Except.ok vs2) => (bb, Except.ok (v :: vs2)))
          = (b2, Except.ok (v :: vs))
      rw [hrun]
    · rw [ir, hr]
    · rw [im, hm]
      simp only [ChildCounts.total, List.foldr_cons]
      rw [← ChildCounts.total]
      omega
    · rw [ic, hc]
      simp only [ChildCounts.total, List.foldr_cons]
      rw [← ChildCounts.total]
      omega
    · rw [is2, hs]
      simp only [ChildCounts.total, List.foldr_cons]
      rw [← ChildCounts.total]
      omega
    · rw [ii, hi]

theorem numMles_append_events (b : ProofBuilder S) (L : List (ProverEvent S)) :
    ProofBuilder.numMles { b with events := b.events ++ L }
        = b.numMles + (L.filter ProverEvent.isMle).length
    ∧ ProofBuilder.numSubpolys { b with events := b.events ++ L }
        = b.numSubpolys + (L.filter ProverEvent.isSubpoly).length := by
  constructor
  · simp [ProofBuilder.numMles, List.filter_append]
  · simp [ProofBuilder.numSubpolys, List.filter_append]

theorem prove_group_by_counts (b : ProofBuilder S) (alpha beta : S)
    (g_in sum_in : List (List S)) (sel_in : List Bool)
    (g_out sum_out : List (List S)) (count_out : List Int)
    (halpha : alpha ≠ 0) :
    ∃ b2, prove_group_by b alpha beta g_in sum_in sel_in g_out sum_out count_out
        = some b2
      ∧ b2.numMles = b.numMles + 2
      ∧ b2.numSubpolys = b.numSubpolys + 3
      ∧ b2.num_challenges_consumed = b.num_challenges_consumed
      ∧ (∃ v1 v2 t1 t2 t3,
          b2.events = b.events
            ++ [ProverEvent.mle v1, ProverEvent.mle v2,
                ProverEvent.subpoly SumcheckSubpolynomialType.ZeroSum t1,
                ProverEvent.subpoly SumcheckSubpolynomialType.Identity t2,
                ProverEvent.subpoly SumcheckSubpolynomialType.Identity t3]
          ∧ (∀ t ∈ t1, t.2.length ≤ 3)
          ∧ (∀ t ∈ t2, t.2.length ≤ 3)
          ∧ (∀ t ∈ t3, t.2.length ≤ 3)) := by
  simp only [prove_group_by, scalarInv, if_neg halpha]
  simp only [ProofBuilder.produce_intermediate_mle,
    ProofBuilder.produce_sumcheck_subpolynomial]
  refine ⟨_, rfl, ?_, ?_, rfl, ?_⟩
  · simp [ProofBuilder.numMles, List.filter_append, ProverEvent.isMle]
  · simp [ProofBuilder.numSubpolys, List.filter_append, ProverEvent.isSubpoly]
  · refine ⟨g_in_star b.table_length alpha beta g_in,
      g_out_star b.table_length count_out.length alpha⁻¹ alpha beta g_out,
      [(1, [g_in_star b.table_length alpha beta g_in, boolToScalars sel_in,
            sum_in_fold b.table_length beta sum_in]),
       (-1, [g_out_star b.table_length count_out.length alpha⁻¹ alpha beta g_out,
             sum_out_bar_fold b.table_length beta sum_out count_out])],
      [(1, [g_in_star b.table_length alpha beta g_in,
            g_in_fold b.table_length alpha beta g_in]), (-1, [])],
      [(1, [g_out_star b.table_length count_out.length alpha⁻¹ alpha beta g_out,
            g_out_bar_fold b.table_length alpha beta g_out]), (-1, [])],
      by simp [List.append_assoc], ?_, ?_, ?_⟩
    · intro t ht
      simp only [List.mem_cons, List.not_mem_nil, or_false] at ht
      rcases ht with rfl | rfl <;> simp
    · intro t ht
      simp only [List.mem_cons, List.not_mem_nil, or_false] at ht
      rcases ht with rfl | rfl <;> simp
    · intro t ht
      simp only [List.mem_cons, List.not_mem_nil, or_false] at ht
      rcases ht with rfl | rfl <;> simp

theorem groupby_count_total (e : GroupByExpr S)
    (kw : ChildCounts) (kgs kss : List ChildCounts)
    (hkw : ChildHasCounts e.where_clause kw)
    (hkg : List.Forall₂ ChildHasCounts e.group_by_exprs kgs)
    (hks : List.Forall₂ ChildHasCounts (e.sum_expr.map (fun p => p.1)) kss) :
    e.count CountBuilder.init
      = .ok { result_columns := e.group_by_exprs.length + e.sum_expr.length + 1,
              intermediate_mles :=
                kw.mles + (ChildCounts.total kgs).mles + (ChildCounts.total kss).mles + 2,
              subpolynomials :=
                kw.subpolys + (ChildCounts.total kgs).subpolys
                  + (ChildCounts.total kss).subpolys + 3,
              degree :=
                max (max (max kw.degree (ChildCounts.total kgs).degree)
                  (ChildCounts.total kss).degree) 3,
              post_result_challenges :=
                kw.challenges + (ChildCounts.total kgs).challenges
                  + (ChildCounts.total kss).challenges + 2 } := by
  simp only [GroupByExpr.count, hkw.1, countChildren_spec hkg, countChildren_spec hks]
  simp only [CountBuilder.init, CountBuilder.addChild, CountBuilder.count_result_columns,
    CountBuilder.count_intermediate_mles, CountBuilder.count_subpolynomials,
    CountBuilder.count_degree, CountBuilder.count_post_result_challenges]
  congr 1
  simp only [CountBuilder.mk.injEq, List.length_map]
  refine ⟨by omega, by omega, by omega, ?_, by omega⟩
  rw [Nat.zero_max]

/-- C1: for every `GroupByExpr` with `M` group-by and `N` sum expressions,
the count pass totals (`M + N + 1` result columns, two intermediate witness
vectors, three identities, maximum degree three, two post-result challenges,
plus the recursively counted child contributions) equal exactly the numbers of
produce/consume calls the other passes make: the result pass produces
`M + N + 1` result columns and requests two challenges, the prove pass
produces the declared number of witness vectors, registers the declared
number of identities (the three of this node having terms of at most three
factors) and consumes the declared challenges, and the verify pass consumes
the declared result evaluations, witness evaluations and challenges and
registers the declared number of identity evaluations. -/
theorem groupby_count_matches_passes (e : GroupByExpr S)
    (rb : ResultBuilder S) (pb : ProofBuilder S) (vb : VerificationBuilder S)
    (kw : ChildCounts) (kgs kss : List ChildCounts)
    (selectionR selectionP : List Bool) (iv : S)
    (hkw : ChildHasCounts e.where_clause kw)
    (hkg : List.Forall₂ ChildHasCounts e.group_by_exprs kgs)
    (hks : List.Forall₂ ChildHasCounts (e.sum_expr.map (fun p => p.1)) kss)
    (hselR : (e.where_clause.resultFn rb.table_length).as_boolean = some selectionR)
    (hselP : ((e.where_clause.proverFn pb).2).as_boolean = some selectionP)
    (hch : ∀ i, pb.challenges i ≠ 0)
    (hiv : vb.result_indexes_evaluation = some iv) :
    ∃ cb, e.count CountBuilder.init = .ok cb
      ∧ cb.result_columns = e.group_by_exprs.length + e.sum_expr.length + 1
      ∧ cb.intermediate_mles
          = kw.mles + (ChildCounts.total kgs).mles + (ChildCounts.total kss).mles + 2
      ∧ cb.subpolynomials
          = kw.subpolys + (ChildCounts.total kgs).subpolys
            + (ChildCounts.total kss).subpolys + 3
      ∧ cb.post_result_challenges
          = kw.challenges + (ChildCounts.total kgs).challenges
            + (ChildCounts.total kss).challenges + 2
      ∧ 3 ≤ cb.degree
      ∧ (∃ rb2, e.result_evaluate rb = some rb2
          ∧ rb2.result_columns.length = rb.result_columns.length + cb.result_columns
          ∧ rb2.num_post_result_challenges = rb.num_post_result_challenges + 2)
      ∧ (∃ pb2, e.prover_evaluate pb = some pb2
          ∧ pb2.numMles = pb.numMles + cb.intermediate_mles
          ∧ pb2.numSubpolys = pb.numSubpolys + cb.subpolynomials
          ∧ pb2.num_challenges_consumed
              = pb.num_challenges_consumed + cb.post_result_challenges
          ∧ (∃ evs v1 v2 t1 t2 t3,
              pb2.events = evs
                ++ [ProverEvent.mle v1, ProverEvent.mle v2,
                    ProverEvent.subpoly SumcheckSubpolynomialType.ZeroSum t1,
                    ProverEvent.subpoly SumcheckSubpolynomialType.Identity t2,
                    ProverEvent.subpoly SumcheckSubpolynomialType.Identity t3]
              ∧ (∀ t ∈ t1, t.2.length ≤ 3)
              ∧ (∀ t ∈ t2, t.2.length ≤ 3)
              ∧ (∀ t ∈ t3, t.2.length ≤ 3)))
      ∧ (∃ vb2, e.verifier_evaluate vb = (vb2, .ok ())
          ∧ vb2.num_result_consumed = vb.num_result_consumed + cb.result_columns
          ∧ vb2.num_intermediate_consumed
              = vb.num_intermediate_consumed + cb.intermediate_mles
          ∧ vb2.num_challenges_consumed
              = vb.num_challenges_consumed + cb.post_result_challenges
          ∧ vb2.subpoly_evals.length = vb.subpoly_evals.length + cb.subpolynomials) := by
  refine ⟨_, groupby_count_total e kw kgs kss hkw hkg hks,
    rfl, rfl, rfl, rfl, le_max_right _ _, ?_, ?_, ?_⟩
  · obtain ⟨rb2, h1, h2, h3, h4, h5, h6, h7⟩ := result_evaluate_shape e rb selectionR hselR
    exact ⟨rb2, h1, h5, h7⟩
  · obtain ⟨bW, colW, hWp⟩ : ∃ x y, e.where_clause.proverFn pb = (x, y) := ⟨_, _, rfl⟩
    have hWm := hkw.2.1 pb
    simp only [hWp] at hWm
    obtain ⟨bG, gcols, hGp⟩ : ∃ x y, runChildrenP e.group_by_exprs bW = (x, y) :=
      ⟨_, _, rfl⟩
    have hGm := runChildrenP_counts hkg bW
    simp only [hGp] at hGm
    obtain ⟨bS, scols, hSp⟩ :
        ∃ x y, runChildrenP (e.sum_expr.map (fun p => p.1)) bG = (x, y) := ⟨_, _, rfl⟩
    have hSm := runChildrenP_counts hks bG
    simp only [hSp] at hSm
    have hsel2 : colW.as_boolean = some selectionP := by
      rw [hWp] at hselP
      exact hselP
    have hchS : bS.challenges = pb.challenges := by
      rw [hSm.2.2.2.2, hGm.2.2.2.2, hWm.2.2.2.2]
    have halpha2 : ¬ (bS.challenges bS.num_challenges_consumed = 0) := by
      rw [hchS]
      exact hch _
    have hred : e.prover_evaluate pb
        = prove_group_by
            { bS with num_challenges_consumed := bS.num_challenges_consumed + 1 + 1 }
            (bS.challenges bS.num_challenges_consumed)
            (bS.challenges (bS.num_challenges_consumed + 1))
            (gcols.map Column.toScalars) (scols.map Column.toScalars) selectionP
            (aggregate_columns gcols scols selectionP).group_by_columns
            (aggregate_columns gcols scols selectionP).sum_columns
            (aggregate_columns gcols scols selectionP).count_column := by
      simp only [GroupByExpr.prover_evaluate, hWp, hsel2, hGp, hSp,
        ProofBuilder.consume_post_result_challenge]
    obtain ⟨pb2, hpe, hm2, hs2, hc2, hterms⟩ :=
      prove_group_by_counts
        { bS with num_challenges_consumed := bS.num_challenges_consumed + 1 + 1 }
        (bS.challenges bS.num_challenges_consumed)
        (bS.challenges (bS.num_challenges_consumed + 1))
        (gcols.map Column.toScalars) (scols.map Column.toScalars) selectionP
        (aggregate_columns gcols scols selectionP).group_by_columns
        (aggregate_columns gcols scols selectionP).sum_columns
        (aggregate_columns gcols scols selectionP).count_column halpha2
    have hBm : ProofBuilder.numMles
        { bS with num_challenges_consumed := bS.num_challenges_consumed + 1 + 1 }
        = bS.numMles := rfl
    have hBs : ProofBuilder.numSubpolys
        { bS with num_challenges_consumed := bS.num_challenges_consumed + 1 + 1 }
        = bS.numSubpolys := rfl
    refine ⟨pb2, by rw [hred]; exact hpe, ?_, ?_, ?_, ?_⟩
    · rw [hm2, hBm, hSm.1, hGm.1, hWm.1]
      show _ = pb.numMles
        + (kw.mles + (ChildCounts.total kgs).mles + (ChildCounts.total kss).mles + 2)
      omega
    · rw [hs2, hBs, hSm.2.1, hGm.2.1, hWm.2.1]
      show _ = pb.numSubpolys
        + (kw.subpolys + (ChildCounts.total kgs).subpolys
            + (ChildCounts.total kss).subpolys + 3)
      omega
    · rw [hc2]
      have h3 : ProofBuilder.num_challenges_consumed
          { bS with num_challenges_consumed := bS.num_challenges_consumed + 1 + 1 }
          = bS.num_challenges_consumed + 1 + 1 := rfl
      rw [h3, hSm.2.2.1, hGm.2.2.1, hWm.2.2.1]
      show _ = pb.num_challenges_consumed
        + (kw.challenges + (ChildCounts.total kgs).challenges
            + (ChildCounts.total kss).challenges + 2)
      omega
    · obtain ⟨v1, v2, t1, t2, t3, hev, hb1, hb2, hb3⟩ := hterms
      exact ⟨_, v1, v2, t1, t2, t3, hev, hb1, hb2, hb3⟩
  · obtain ⟨⟨vwv, hvw⟩, vr, vm, vc, vs1, vi⟩ := hkw.2.2 vb
    obtain ⟨wb1, hwb1⟩ : ∃ x, (e.where_clause.verifierFn vb).1 = x := ⟨_, rfl⟩
    have hWvp : e.where_clause.verifierFn vb = (wb1, Except.ok vwv) := by
      rw [← hwb1, ← hvw]
    rw [hwb1] at vr vm vc vs1 vi
    obtain ⟨wb2, gvs, hGv, gr, gm, gc, gs, gi⟩ := runChildrenV_counts hkg wb1
    obtain ⟨wb3, svs, hSv, sr, sm, sc, ss, si⟩ := runChildrenV_counts hks wb2
    have hiv3 : wb3.result_indexes_evaluation = some iv := by
      rw [si, gi, vi, hiv]
    simp only [GroupByExpr.verifier_evaluate, hWvp, hGv, hSv, hiv3,
      consume_result_mles_spec, VerificationBuilder.consume_result_mle,
      VerificationBuilder.consume_post_result_challenge, verify_group_by,
      VerificationBuilder.consume_intermediate_mle,
      VerificationBuilder.produce_sumcheck_subpolynomial_evaluation]
    refine ⟨_, rfl, ?_, ?_, ?_, ?_⟩
    · show _ = vb.num_result_consumed + (e.group_by_exprs.length + e.sum_expr.length + 1)
      simp only []
      rw [sr, gr, vr]
      omega
    · show _ = vb.num_intermediate_consumed
        + (kw.mles + (ChildCounts.total kgs).mles + (ChildCounts.total kss).mles + 2)
      simp only []
      rw [sm, gm, vm]
      omega
    · show _ = vb.num_challenges_consumed
        + (kw.challenges + (ChildCounts.total kgs).challenges
            + (ChildCounts.total kss).challenges + 2)
      simp only []
      rw [sc, gc, vc]
      omega
    · show _ = vb.subpoly_evals.length
        + (kw.subpolys + (ChildCounts.total kgs).subpolys
            + (ChildCounts.total kss).subpolys + 3)
      simp only []
      simp only [List.length_append, List.length_cons, List.length_nil]
      rw [ss, gs, vs1]
      omega

theorem trivialChild_hasCounts : ChildHasCounts trivialChild zeroCounts := by
  refine ⟨?_, ?_, ?_⟩
  · intro b
    cases b
    simp [trivialChild, CountBuilder.addChild, zeroCounts]
  · intro b
    exact ⟨by simp [trivialChild, zeroCounts], by simp [trivialChild, zeroCounts],
      by simp [trivialChild, zeroCounts], rfl, rfl⟩
  · intro b
    exact ⟨⟨1, rfl⟩, rfl, by simp [trivialChild, zeroCounts],
      by simp [trivialChild, zeroCounts], by simp [trivialChild, zeroCounts], rfl⟩

/-- Witness for C1 at the concrete sample node and builders. -/
theorem groupby_count_matches_passes_witness :
    ((∀ i, samplePB.challenges i ≠ 0)
    ∧ (∃ cb, sampleGroupBy.count CountBuilder.init = .ok cb
      ∧ cb.result_columns
          = sampleGroupBy.group_by_exprs.length + sampleGroupBy.sum_expr.length + 1
      ∧ cb.intermediate_mles
          = zeroCounts.mles + (ChildCounts.total [zeroCounts]).mles
            + (ChildCounts.total []).mles + 2
      ∧ cb.subpolynomials
          = zeroCounts.subpolys + (ChildCounts.total [zeroCounts]).subpolys
            + (ChildCounts.total []).subpolys + 3
      ∧ cb.post_result_challenges
          = zeroCounts.challenges + (ChildCounts.total [zeroCounts]).challenges
            + (ChildCounts.total []).challenges + 2
      ∧ 3 ≤ cb.degree
      ∧ (∃ rb2, sampleGroupBy.result_evaluate sampleRB = some rb2
          ∧ rb2.result_columns.length
              = sampleRB.result_columns.length + cb.result_columns
          ∧ rb2.num_post_result_challenges
              = sampleRB.num_post_result_challenges + 2)
      ∧ (∃ pb2, sampleGroupBy.prover_evaluate samplePB = some pb2
          ∧ pb2.numMles = samplePB.numMles + cb.intermediate_mles
          ∧ pb2.numSubpolys = samplePB.numSubpolys + cb.subpolynomials
          ∧ pb2.num_challenges_consumed
              = samplePB.num_challenges_consumed + cb.post_result_challenges
          ∧ (∃ evs v1 v2 t1 t2 t3,
              pb2.events = evs
                ++ [ProverEvent.mle v1, ProverEvent.mle v2,
                    ProverEvent.subpoly SumcheckSubpolynomialType.ZeroSum t1,
                    ProverEvent.subpoly SumcheckSubpolynomialType.Identity t2,
                    ProverEvent.subpoly SumcheckSubpolynomialType.Identity t3]
              ∧ (∀ t ∈ t1, t.2.length ≤ 3)
              ∧ (∀ t ∈ t2, t.2.length ≤ 3)
              ∧ (∀ t ∈ t3, t.2.length ≤ 3)))
      ∧ (∃ vb2, sampleGroupBy.verifier_evaluate sampleVB = (vb2, .ok ())
          ∧ vb2.num_result_consumed
              = sampleVB.num_result_consumed + cb.result_columns
          ∧ vb2.num_intermediate_consumed
              = sampleVB.num_intermediate_consumed + cb.intermediate_mles
          ∧ vb2.num_challenges_consumed
              = sampleVB.num_challenges_consumed + cb.post_result_challenges
          ∧ vb2.subpoly_evals.length
              = sampleVB.subpoly_evals.length + cb.subpolynomials))) :=
  ⟨fun i => one_ne_zero,
   groupby_count_matches_passes sampleGroupBy sampleRB samplePB sampleVB
     zeroCounts [zeroCounts] [] [true] [true] 1
     trivialChild_hasCounts
     (List.Forall₂.cons trivialChild_hasCounts List.Forall₂.nil)
     List.Forall₂.nil rfl rfl (fun i => one_ne_zero) rfl⟩

/-- Concrete instantiation of the C8 characterization at a context with one
group-by column, inside result scope and outside aggregation scope. -/
theorem query_context_is_in_group_by_exprs_spec_witness :
    ((({ in_agg_scope := false, in_result_scope := true,
         group_by_exprs := ["a"] } : QueryContext).group_by_exprs.isEmpty
        || ({ in_agg_scope := false, in_result_scope := true,
              group_by_exprs := ["a"] } : QueryContext).is_in_agg_scope
        || !({ in_agg_scope := false, in_result_scope := true,
               group_by_exprs := ["a"] } : QueryContext).is_in_result_scope) = true →
      ({ in_agg_scope := false, in_result_scope := true,
         group_by_exprs := ["a"] } : QueryContext).is_in_group_by_exprs "a" = .ok false)
    ∧ ((({ in_agg_scope := false, in_result_scope := true,
           group_by_exprs := ["a"] } : QueryContext).group_by_exprs.isEmpty
        || ({ in_agg_scope := false, in_result_scope := true,
              group_by_exprs := ["a"] } : QueryContext).is_in_agg_scope
        || !({ in_agg_scope := false, in_result_scope := true,
               group_by_exprs := ["a"] } : QueryContext).is_in_result_scope) = false →
        ("a" ∈ ({ in_agg_scope := false, in_result_scope := true,
                  group_by_exprs := ["a"] } : QueryContext).group_by_exprs →
          ({ in_agg_scope := false, in_result_scope := true,
             group_by_exprs := ["a"] } : QueryContext).is_in_group_by_exprs "a"
            = .ok true)
        ∧ ("a" ∉ ({ in_agg_scope := false, in_result_scope := true,
                    group_by_exprs := ["a"] } : QueryContext).group_by_exprs →
            ({ in_agg_scope := false, in_result_scope := true,
               group_by_exprs := ["a"] } : QueryContext).is_in_group_by_exprs "a"
              = .error (ConversionError.InvalidGroupByColumnRef "a"))) :=
  query_context_is_in_group_by_exprs_spec
    { in_agg_scope := false, in_result_scope := true, group_by_exprs := ["a"] } "a"

/-- Concrete instantiation of the C10 characterization at the stored value
five with scale zero. -/
theorem intermediate_decimal_try_from_spec_witness :
    (¬ ((10 : Int) ^ (({ value := { int_val := 5, scale := 0 } } :
          IntermediateDecimal)).value.scale
        ∣ (({ value := { int_val := 5, scale := 0 } } :
          IntermediateDecimal)).value.int_val) →
      i64_try_from { value := { int_val := 5, scale := 0 } } = .error .LossyCast
      ∧ i128_try_from { value := { int_val := 5, scale := 0 } } = .error .LossyCast)
    ∧ ((10 : Int) ^ (({ value := { int_val := 5, scale := 0 } } :
          IntermediateDecimal)).value.scale
        ∣ (({ value := { int_val := 5, scale := 0 } } :
          IntermediateDecimal)).value.int_val →
        (({ value := { int_val := 5, scale := 0 } } :
            IntermediateDecimal)).value.intQuot
            * (10 : Int) ^ (({ value := { int_val := 5, scale := 0 } } :
              IntermediateDecimal)).value.scale
          = (({ value := { int_val := 5, scale := 0 } } :
            IntermediateDecimal)).value.int_val
        ∧ ((-(2 ^ 63) ≤ (({ value := { int_val := 5, scale := 0 } } :
              IntermediateDecimal)).value.intQuot
            ∧ (({ value := { int_val := 5, scale := 0 } } :
              IntermediateDecimal)).value.intQuot ≤ 2 ^ 63 - 1) →
            i64_try_from { value := { int_val := 5, scale := 0 } }
              = .ok (({ value := { int_val := 5, scale := 0 } } :
                IntermediateDecimal)).value.intQuot)
        ∧ (¬ (-(2 ^ 63) ≤ (({ value := { int_val := 5, scale := 0 } } :
              IntermediateDecimal)).value.intQuot
            ∧ (({ value := { int_val := 5, scale := 0 } } :
              IntermediateDecimal)).value.intQuot ≤ 2 ^ 63 - 1) →
            i64_try_from { value := { int_val := 5, scale := 0 } }
              = .error .OutOfRange)
        ∧ ((-(2 ^ 127) ≤ (({ value := { int_val := 5, scale := 0 } } :
              IntermediateDecimal)).value.intQuot
            ∧ (({ value := { int_val := 5, scale := 0 } } :
              IntermediateDecimal)).value.intQuot ≤ 2 ^ 127 - 1) →
            i128_try_from { value := { int_val := 5, scale := 0 } }
              = .ok (({ value := { int_val := 5, scale := 0 } } :
                IntermediateDecimal)).value.intQuot)
        ∧ (¬ (-(2 ^ 127) ≤ (({ value := { int_val := 5, scale := 0 } } :
              IntermediateDecimal)).value.intQuot
            ∧ (({ value := { int_val := 5, scale := 0 } } :
              IntermediateDecimal)).value.intQuot ≤ 2 ^ 127 - 1) →
            i128_try_from { value := { int_val := 5, scale := 0 } }
              = .error .OutOfRange)) :=
  intermediate_decimal_try_from_spec { value := { int_val := 5, scale := 0 } }

end ProofOfSql
